import Mathlib

/-!
Verification development for the WTB (workflow test bench) core: a shallow
embedding, in Lean, of the outbox event model and repositories, the outbox
processor, the batch execution coordinator, the AgentGit state adapter's
rollback, and the file cleanup service, together with theorems about the
claims the specification makes about them.

Conventions of the embedding:
- Python dicts with string keys are association lists `List (String × JVal)`
  where `JVal` is a JSON-like value type; `dict.get k` is `jget`, and
  `dict.get k default` is `(jget k kvs).getD default`.
- Python truthiness is `JVal.truthy` / `optTruthy`.
- Timestamps are abstract `Nat` instants; values produced by the clock
  (`datetime.now()`) and by `uuid.uuid4()` are passed in as parameters.
- Fallible Python code (code that can raise) returns `Except String` or
  `Option`; exceptions caught by the source are matched on accordingly.
-/

/-- JSON-like values: the payload values stored in an outbox event's
`payload` dict and in `ExecutionState.workflow_variables`. -/
inductive JVal where
  | null
  | s (v : String)
  | n (v : Int)
  | b (v : Bool)
  | a (items : List JVal)
  | obj (kvs : List (String × JVal))

/-- Python truthiness of a value: `None`, `""`, `0`, `False`, `[]` and `{}`
are falsy, everything else is truthy. -/
def JVal.truthy : JVal → Bool
  | .null => false
  | .s v => !(v == "")
  | .n v => !(v == 0)
  | .b v => v
  | .a items => !items.isEmpty
  | .obj kvs => !kvs.isEmpty

/-- Python `dict.get(k)`: the value stored under key `k`, if any. -/
def jget (k : String) (kvs : List (String × JVal)) : Option JVal :=
  (kvs.find? (fun p => p.1 == k)).map (fun p => p.2)

/-- Truthiness of an `Optional` Python value (`None` is falsy). -/
def optTruthy : Option JVal → Bool
  | none => false
  | some v => v.truthy

/-- Outbox event processing status (`OutboxStatus` in
wtb/domain/models/outbox.py). -/
inductive OutboxStatus where
  | pending
  | processing
  | processed
  | failed
deriving DecidableEq, Repr

/-- Outbox event types (`OutboxEventType` in wtb/domain/models/outbox.py). -/
inductive OutboxEventType where
  | checkpoint_create
  | checkpoint_verify
  | checkpoint_saved
  | node_boundary_sync
  | file_commit_link
  | file_commit_verify
  | file_blob_verify
  | file_tracked
  | file_batch_verify
  | file_integrity_check
  | file_restore_verify
  | checkpoint_file_link_verify
  | rollback_file_restore
  | rollback_verify
  | rollback_performed
  | ray_event
  | execution_paused
  | execution_resumed
  | execution_stopped
  | state_modified
  | workflow_created
  | batch_test_created
  | batch_test_cancelled
  | execution_forked
deriving DecidableEq, Repr

/-- Python `str()` of an `OutboxEventType` member (its member name), as it
appears interpolated into the processor's no-handler error message. -/
def OutboxEventType.pyMemberName : OutboxEventType → String
  | .checkpoint_create => "CHECKPOINT_CREATE"
  | .checkpoint_verify => "CHECKPOINT_VERIFY"
  | .checkpoint_saved => "CHECKPOINT_SAVED"
  | .node_boundary_sync => "NODE_BOUNDARY_SYNC"
  | .file_commit_link => "FILE_COMMIT_LINK"
  | .file_commit_verify => "FILE_COMMIT_VERIFY"
  | .file_blob_verify => "FILE_BLOB_VERIFY"
  | .file_tracked => "FILE_TRACKED"
  | .file_batch_verify => "FILE_BATCH_VERIFY"
  | .file_integrity_check => "FILE_INTEGRITY_CHECK"
  | .file_restore_verify => "FILE_RESTORE_VERIFY"
  | .checkpoint_file_link_verify => "CHECKPOINT_FILE_LINK_VERIFY"
  | .rollback_file_restore => "ROLLBACK_FILE_RESTORE"
  | .rollback_verify => "ROLLBACK_VERIFY"
  | .rollback_performed => "ROLLBACK_PERFORMED"
  | .ray_event => "RAY_EVENT"
  | .execution_paused => "EXECUTION_PAUSED"
  | .execution_resumed => "EXECUTION_RESUMED"
  | .execution_stopped => "EXECUTION_STOPPED"
  | .state_modified => "STATE_MODIFIED"
  | .workflow_created => "WORKFLOW_CREATED"
  | .batch_test_created => "BATCH_TEST_CREATED"
  | .batch_test_cancelled => "BATCH_TEST_CANCELLED"
  | .execution_forked => "EXECUTION_FORKED"

/-- Outbox event entity (`OutboxEvent` dataclass in
wtb/domain/models/outbox.py). `id` is the database PK (None until assigned),
`event_id` the UUID string, `created_at` an abstract instant. -/
structure OutboxEvent where
  id : Option Nat
  event_id : String
  event_type : OutboxEventType
  aggregate_type : String
  aggregate_id : String
  payload : List (String × JVal)
  idempotency_key : Option String
  status : OutboxStatus
  retry_count : Nat
  max_retries : Nat
  created_at : Nat
  processed_at : Option Nat
  published_at : Option Nat
  last_error : Option String

/-- OutboxEvent.can_retry. -/
def OutboxEvent.can_retry (e : OutboxEvent) : Bool :=
  (e.status == OutboxStatus.pending || e.status == OutboxStatus.failed)
    && decide (e.retry_count < e.max_retries)

/-- OutboxEvent.mark_processing. -/
def OutboxEvent.mark_processing (e : OutboxEvent) : OutboxEvent :=
  { e with status := OutboxStatus.processing }

/-- OutboxEvent.mark_processed; `now` stands for `datetime.now()`. -/
def OutboxEvent.mark_processed (e : OutboxEvent) (now : Nat) : OutboxEvent :=
  { e with status := OutboxStatus.processed, processed_at := some now }

/-- OutboxEvent.mark_failed. -/
def OutboxEvent.mark_failed (e : OutboxEvent) (error : String) : OutboxEvent :=
  { e with status := OutboxStatus.failed,
           retry_count := e.retry_count + 1,
           last_error := some error }

/-- OutboxEvent.reset_for_retry: manual retry resets the status AND zeroes
`retry_count` AND clears `last_error`. -/
def OutboxEvent.reset_for_retry (e : OutboxEvent) : OutboxEvent :=
  { e with status := OutboxStatus.pending, retry_count := 0, last_error := none }

/-- OutboxEvent.create: the generic factory. `event_id` stands for the
generated `uuid.uuid4()` string and `now` for `datetime.now()`; dataclass
defaults fill the remaining fields. Arguments are positional:
event type, aggregate type, aggregate id, payload, idempotency key. -/
def OutboxEvent.create (event_id : String) (now : Nat) (event_type : OutboxEventType)
    (aggregate_type : String) (aggregate_id : String)
    (payload : List (String × JVal)) (idempotency_key : Option String) : OutboxEvent :=
  { id := none, event_id := event_id, event_type := event_type,
    aggregate_type := aggregate_type, aggregate_id := aggregate_id,
    payload := payload, idempotency_key := idempotency_key,
    status := OutboxStatus.pending, retry_count := 0, max_retries := 5,
    created_at := now, processed_at := none, published_at := none,
    last_error := none }

/-! MockOutboxRepository (tests/mocks/repositories.py): an in-memory
repository keyed by `event_id` and by PK. Python dict assignment replaces
the value in place when the key exists and appends otherwise. -/

/-- Assignment `d[k] = v` on a Python dict modelled as an association list:
replace in place if the key is present, else append. -/
def assocSet (k : String) (v : OutboxEvent) :
    List (String × OutboxEvent) → List (String × OutboxEvent)
  | [] => [(k, v)]
  | (k0, v0) :: rest =>
    if k0 == k then (k, v) :: rest else (k0, v0) :: assocSet k v rest

/-- Assignment on the PK-keyed dict. -/
def assocSetPk (k : Nat) (v : OutboxEvent) :
    List (Nat × OutboxEvent) → List (Nat × OutboxEvent)
  | [] => [(k, v)]
  | (k0, v0) :: rest =>
    if k0 == k then (k, v) :: rest else (k0, v0) :: assocSetPk k v rest

/-- State of a MockOutboxRepository: both dicts and the PK counter. -/
structure MockOutboxRepository where
  events : List (String × OutboxEvent)
  events_by_pk : List (Nat × OutboxEvent)
  pk_counter : Nat

/-- A fresh MockOutboxRepository. -/
def MockOutboxRepository.empty : MockOutboxRepository :=
  { events := [], events_by_pk := [], pk_counter := 0 }

/-- MockOutboxRepository.add: bump the PK counter, assign `id` if unset,
then store under `event_id` and under the PK — replacing whatever was
stored there before, with no uniqueness check and no conflict error. -/
def MockOutboxRepository.add (repo : MockOutboxRepository) (event : OutboxEvent) :
    MockOutboxRepository × OutboxEvent :=
  let counter := repo.pk_counter + 1
  let event := if event.id = none then { event with id := some counter } else event
  ( { events := assocSet event.event_id event repo.events,
      events_by_pk := assocSetPk (event.id.getD 0) event repo.events_by_pk,
      pk_counter := counter },
    event )

/-- MockOutboxRepository.get_by_id (lookup by `event_id`). -/
def MockOutboxRepository.get_by_id (repo : MockOutboxRepository) (event_id : String) :
    Option OutboxEvent :=
  ((repo.events.find? (fun p => p.1 == event_id)).map (fun p => p.2))

/-! SQLAlchemyOutboxRepository
(wtb/infrastructure/database/repositories/outbox_repository.py). The ORM row
type `OutboxEventORM` is imported from wtb.infrastructure.database.models,
which is absent from the sources; its row shape is modelled from the spec's
persisted layout for the `outbox` table. The repository's own `_to_orm` and
`_to_domain` conversions are embedded field by field from the source. -/

/-- Modelled from the spec: the `OutboxEventORM` row of the `outbox` table
(wtb.infrastructure.database.models is not among the sources). Per the
spec's layout the table has a nullable `idempotency_key` column, so a
constructor call that omits it leaves the column NULL. -/
structure OutboxEventORM where
  id : Option Nat
  event_id : String
  event_type : OutboxEventType
  aggregate_type : String
  aggregate_id : String
  payload : List (String × JVal)
  idempotency_key : Option String
  status : OutboxStatus
  retry_count : Nat
  max_retries : Nat
  created_at : Nat
  processed_at : Option Nat
  last_error : Option String

/-- SQLAlchemyOutboxRepository._to_orm: builds the ORM row from the domain
event. The constructor call passes id, event_id, event_type, aggregate_type,
aggregate_id, payload (JSON round-trip, modelled as identity), status,
retry_count, max_retries, created_at, processed_at and last_error — and
omits `idempotency_key`, which therefore stays NULL. -/
def SQLAlchemyOutboxRepository.to_orm (e : OutboxEvent) : OutboxEventORM :=
  { id := e.id, event_id := e.event_id, event_type := e.event_type,
    aggregate_type := e.aggregate_type, aggregate_id := e.aggregate_id,
    payload := e.payload, idempotency_key := none,
    status := e.status, retry_count := e.retry_count,
    max_retries := e.max_retries, created_at := e.created_at,
    processed_at := e.processed_at, last_error := e.last_error }

/-- SQLAlchemyOutboxRepository._to_domain: builds the domain event from the
ORM row. The constructor call passes id, event_id, event_type,
aggregate_type, aggregate_id, payload, status, retry_count, max_retries,
created_at, processed_at and last_error — `idempotency_key` and
`published_at` are not passed, so they take the dataclass defaults (None). -/
def SQLAlchemyOutboxRepository.to_domain (o : OutboxEventORM) : OutboxEvent :=
  { id := o.id, event_id := o.event_id, event_type := o.event_type,
    aggregate_type := o.aggregate_type, aggregate_id := o.aggregate_id,
    payload := o.payload, idempotency_key := none,
    status := o.status, retry_count := o.retry_count,
    max_retries := o.max_retries, created_at := o.created_at,
    processed_at := o.processed_at, published_at := none,
    last_error := o.last_error }

/-- SQLAlchemyOutboxRepository.add over the table's rows: insert the ORM row
(the database assigns the PK at flush when unset, modelled as one more than
the current row count) and return the row converted back to the domain. -/
def SQLAlchemyOutboxRepository.add (rows : List OutboxEventORM) (e : OutboxEvent) :
    List OutboxEventORM × OutboxEvent :=
  let orm := SQLAlchemyOutboxRepository.to_orm e
  let orm := if orm.id = none then { orm with id := some (rows.length + 1) } else orm
  (rows ++ [orm], SQLAlchemyOutboxRepository.to_domain orm)

/-- Row order used by `ORDER BY created_at ASC`. -/
def ormCreatedLE (x y : OutboxEventORM) : Prop := x.created_at ≤ y.created_at

instance : DecidableRel ormCreatedLE := fun x y => Nat.decLe x.created_at y.created_at

/-- SQLAlchemyOutboxRepository.get_pending: PENDING rows ordered by
`created_at` ascending, limited, converted to domain events. -/
def SQLAlchemyOutboxRepository.get_pending (rows : List OutboxEventORM) (limit : Nat) :
    List OutboxEvent :=
  (((rows.filter (fun o => o.status == OutboxStatus.pending)).insertionSort
      ormCreatedLE).take limit).map SQLAlchemyOutboxRepository.to_domain

/-- SQLAlchemyOutboxRepository.get_failed_for_retry: FAILED rows with
`retry_count < max_retries`, ordered by `created_at` ascending, limited. -/
def SQLAlchemyOutboxRepository.get_failed_for_retry (rows : List OutboxEventORM)
    (limit : Nat) : List OutboxEvent :=
  (((rows.filter (fun o =>
      o.status == OutboxStatus.failed && decide (o.retry_count < o.max_retries))).insertionSort
      ormCreatedLE).take limit).map SQLAlchemyOutboxRepository.to_domain

/-- Field copy performed by SQLAlchemyOutboxRepository.update on the matched
row: status, retry_count, processed_at and last_error are overwritten, every
other column is left as stored. -/
def applyUpdateFields (orm : OutboxEventORM) (e : OutboxEvent) : OutboxEventORM :=
  { orm with status := e.status, retry_count := e.retry_count,
             processed_at := e.processed_at, last_error := e.last_error }

/-- SQLAlchemyOutboxRepository.update: find the first row whose `id` equals
the event's and overwrite its mutable fields; `none` models the ValueError
raised when no row matches. -/
def updateRows (e : OutboxEvent) : List OutboxEventORM → Option (List OutboxEventORM)
  | [] => none
  | orm :: rest =>
    if orm.id == e.id then some (applyUpdateFields orm e :: rest)
    else (updateRows e rest).map (fun rest' => orm :: rest')

/-! OutboxProcessor (wtb/infrastructure/outbox/processor.py). The handler
table built in `__init__` is embedded as the set of event types it maps;
the bodies of the seven registered handlers reach into external
repositories and are abstracted by a `runHandler` parameter whose `.error`
outcome models a handler raising. -/

/-- Event types registered in `self._handlers` (processor.py, `__init__`):
exactly CHECKPOINT_CREATE, CHECKPOINT_VERIFY, NODE_BOUNDARY_SYNC,
FILE_COMMIT_LINK, FILE_COMMIT_VERIFY, FILE_BLOB_VERIFY and
CHECKPOINT_FILE_LINK_VERIFY. -/
def OutboxProcessor.handledTypes : OutboxEventType → Bool
  | .checkpoint_create => true
  | .checkpoint_verify => true
  | .node_boundary_sync => true
  | .file_commit_link => true
  | .file_commit_verify => true
  | .file_blob_verify => true
  | .checkpoint_file_link_verify => true
  | _ => false

/-- Message of the ValueError raised when an event's type has no handler. -/
def noHandlerMsg (t : OutboxEventType) : String :=
  "No handler for event type: OutboxEventType." ++ t.pyMemberName

/-- Message of the ValueError raised by the repository's update when no row
matches the event's id. -/
def updateNotFoundMsg : String := "OutboxEvent not found"

/-- Per-event body of `_process_batch`'s loop: mark PROCESSING and update;
dispatch to the handler if the type is in the table, else raise the
no-handler ValueError; mark PROCESSED (counting it) or, in the except
branch, mark FAILED with the error message and update. A repository update
that itself raises escapes the loop and aborts the whole batch (`.error`). -/
def processFold (runHandler : OutboxEvent → Except String Unit) (now : Nat) :
    List OutboxEvent → List OutboxEventORM → Nat → Except String (List OutboxEventORM × Nat)
  | [], rows, n => Except.ok (rows, n)
  | e :: rest, rows, n =>
    match updateRows e.mark_processing rows with
    | none => Except.error updateNotFoundMsg
    | some rows1 =>
      if OutboxProcessor.handledTypes e.event_type then
        match runHandler e.mark_processing with
        | .ok _ =>
          match updateRows (e.mark_processing.mark_processed now) rows1 with
          | none => Except.error updateNotFoundMsg
          | some rows2 => processFold runHandler now rest rows2 (n + 1)
        | .error msg =>
          match updateRows (e.mark_processing.mark_failed msg) rows1 with
          | none => Except.error updateNotFoundMsg
          | some rows2 => processFold runHandler now rest rows2 n
      else
        match updateRows (e.mark_processing.mark_failed (noHandlerMsg e.event_type)) rows1 with
        | none => Except.error updateNotFoundMsg
        | some rows2 => processFold runHandler now rest rows2 n

/-- OutboxProcessor._process_batch: fetch PENDING events (batch_size limit),
return 0 when there are none, else run the per-event loop. -/
def OutboxProcessor.process_batch (runHandler : OutboxEvent → Except String Unit)
    (now : Nat) (batch_size : Nat) (rows : List OutboxEventORM) :
    Except String (List OutboxEventORM × Nat) :=
  if (SQLAlchemyOutboxRepository.get_pending rows batch_size).isEmpty then
    Except.ok (rows, 0)
  else
    processFold runHandler now (SQLAlchemyOutboxRepository.get_pending rows batch_size)
      rows 0

/-- Loop of OutboxProcessor.retry_failed_events: for each fetched event that
`can_retry`, set its status to PENDING (touching no other field) and update
the stored row, counting it. -/
def retryFold : List OutboxEvent → List OutboxEventORM → Nat →
    Except String (List OutboxEventORM × Nat)
  | [], rows, n => Except.ok (rows, n)
  | e :: rest, rows, n =>
    if e.can_retry then
      match updateRows { e with status := OutboxStatus.pending } rows with
      | none => Except.error updateNotFoundMsg
      | some rows' => retryFold rest rows' (n + 1)
    else retryFold rest rows n

/-- OutboxProcessor.retry_failed_events: fetch FAILED events that are below
the retry cap (`get_failed_for_retry`, limit 100) and promote each of them
back to PENDING; events at or above the cap are never fetched. -/
def OutboxProcessor.retry_failed_events (rows : List OutboxEventORM) :
    Except String (List OutboxEventORM × Nat) :=
  retryFold (SQLAlchemyOutboxRepository.get_failed_for_retry rows 100) rows 0

/-! BatchExecutionCoordinator
(wtb/application/services/batch_execution_coordinator.py). The execution
controller it creates per operation lives in
wtb/application/services/execution_controller.py, which is absent from the
sources, so controller calls are opaque parameters acting on the unit of
work's pending view of the primary store; the coordinator's own transaction
shape, event construction and post-commit behaviour are embedded from the
source. Each operation returns the committed primary store, the outcome,
and the list of file-store restore calls the coordinator makes after the
commit. -/

/-- Execution status enumeration (`ExecutionStatus`). Modelled from the
spec: wtb/domain/models/workflow.py is absent from the sources; the spec's
data model lists exactly these states. -/
inductive ExecutionStatus where
  | pending
  | running
  | paused
  | completed
  | failed
  | cancelled
deriving DecidableEq, Repr

/-- Python `.value` string of an ExecutionStatus member. -/
def ExecutionStatus.pyValue : ExecutionStatus → String
  | .pending => "pending"
  | .running => "running"
  | .paused => "paused"
  | .completed => "completed"
  | .failed => "failed"
  | .cancelled => "cancelled"

/-- Execution state snapshot (`ExecutionState`). Modelled from the spec:
wtb/domain/models/workflow.py is absent from the sources; the spec defines
current_node_id, workflow_variables, execution_path and node_results. -/
structure ExecutionState where
  current_node_id : Option String
  workflow_variables : List (String × JVal)
  execution_path : List String
  node_results : List (String × JVal)

/-- Execution entity (`Execution`). Modelled from the spec: the coordinator
reads its `id`, `status` and `state`. -/
structure Execution where
  id : String
  workflow_id : String
  status : ExecutionStatus
  state : Option ExecutionState

/-- Primary-store contents a coordinator operation touches: executions and
the outbox table (domain view). -/
structure PrimaryStore where
  executions : List Execution
  outbox : List OutboxEvent

/-- Second lookup of `_extract_file_commit_id`: the `file_commit_id` key of
the workflow variables, if truthy. -/
def extractFileCommitIdDirect (vars : List (String × JVal)) : Option JVal :=
  match jget "file_commit_id" vars with
  | some v => if v.truthy then some v else none
  | none => none

/-- BatchExecutionCoordinator._extract_file_commit_id: `None` when the
execution or its state is missing; else the truthy `commit_id` of the
`_file_tracking_result` dict, falling back to the truthy `file_commit_id`
workflow variable. -/
def extractFileCommitId (execution : Option Execution) : Option JVal :=
  match execution with
  | none => none
  | some ex =>
    match ex.state with
    | none => none
    | some st =>
      let vars := st.workflow_variables
      match (jget "_file_tracking_result" vars).getD (JVal.obj []) with
      | .obj kvs =>
        match jget "commit_id" kvs with
        | some v => if v.truthy then some v else extractFileCommitIdDirect vars
        | none => extractFileCommitIdDirect vars
      | _ => extractFileCommitIdDirect vars

/-- Configuration of a coordinator: whether `self._file_tracking` was
injected, and what its `is_available()` reports. -/
structure Coordinator where
  has_file_tracking : Bool
  file_tracking_available : Bool

/-- A controller operation on the unit of work's pending store: either the
new pending store and the returned execution, or a raised error. -/
def CtrlAction := PrimaryStore → Except String (PrimaryStore × Execution)

/-- BatchExecutionCoordinator._restore_files_post_commit: no call when the
commit id is falsy or no file-tracking service is configured or it reports
unavailable; otherwise one best-effort `restore_commit` call (its own
failure is swallowed). Returns the file-store calls made. -/
def Coordinator.restoreFilesPostCommit (c : Coordinator) (fci : Option JVal) :
    List JVal :=
  if !optTruthy fci || !c.has_file_tracking then []
  else if !c.file_tracking_available then []
  else [fci.getD JVal.null]

/-- Audit event enqueued by `rollback`. -/
def mkRollbackAudit (event_id : String) (now : Nat)
    (execution_id checkpoint_id : String) (fci : Option JVal) : OutboxEvent :=
  OutboxEvent.create event_id now OutboxEventType.rollback_performed
    "Execution" execution_id
    [("execution_id", JVal.s execution_id),
     ("checkpoint_id", JVal.s checkpoint_id),
     ("file_commit_id", fci.getD JVal.null),
     ("operation", JVal.s "rollback")] none

/-- File-restore event enqueued by `rollback` when a commit id was
extracted and a file-tracking service is configured. -/
def mkRollbackFileRestore (event_id : String) (now : Nat)
    (execution_id checkpoint_id : String) (fci : Option JVal) : OutboxEvent :=
  OutboxEvent.create event_id now OutboxEventType.rollback_file_restore
    "Execution" execution_id
    [("source_checkpoint_id", JVal.s checkpoint_id),
     ("target_checkpoint_id", JVal.s checkpoint_id),
     ("source_commit_id", fci.getD JVal.null),
     ("execution_id", JVal.s execution_id)] none

/-- BatchExecutionCoordinator.rollback: inside one unit of work, perform the
controller rollback, extract the file commit id from the restored state,
enqueue the ROLLBACK_PERFORMED audit event and — when the commit id is
truthy AND a file-tracking service is configured — the ROLLBACK_FILE_RESTORE
event, then commit; on any error the unit of work is rolled back, leaving
the committed store untouched.  No file-store call is made after commit
(all restoration is left to the outbox processor). -/
def Coordinator.rollback (c : Coordinator) (ctrlRollback : CtrlAction)
    (auditEventId restoreEventId : String) (now : Nat)
    (store : PrimaryStore) (execution_id checkpoint_id : String) :
    PrimaryStore × Except String Execution × List JVal :=
  match ctrlRollback store with
  | .error msg => (store, Except.error msg, [])
  | .ok (pending, execution) =>
    let fci := extractFileCommitId (some execution)
    let audit := mkRollbackAudit auditEventId now execution_id checkpoint_id fci
    let pending := { pending with outbox := pending.outbox ++ [audit] }
    let pending :=
      if optTruthy fci && c.has_file_tracking then
        { pending with outbox := pending.outbox ++
            [mkRollbackFileRestore restoreEventId now execution_id checkpoint_id fci] }
      else pending
    (pending, Except.ok execution, [])

/-- Audit event enqueued by `fork`; `new_state_keys` is the key list of the
merged state (empty when the dict is missing or empty). -/
def mkForkAudit (event_id : String) (now : Nat)
    (source_execution_id fork_execution_id checkpoint_id : String)
    (new_state : Option (List (String × JVal))) : OutboxEvent :=
  OutboxEvent.create event_id now OutboxEventType.execution_forked
    "Execution" fork_execution_id
    [("source_execution_id", JVal.s source_execution_id),
     ("fork_execution_id", JVal.s fork_execution_id),
     ("source_checkpoint_id", JVal.s checkpoint_id),
     ("new_state_keys",
        JVal.a ((new_state.getD []).map (fun p => JVal.s p.1)))] none

/-- BatchExecutionCoordinator.fork: one unit of work around the controller
fork and the EXECUTION_FORKED audit event; on error the unit of work is
rolled back. No file-store call is made after commit. -/
def Coordinator.fork (_c : Coordinator) (ctrlFork : CtrlAction)
    (forkEventId : String) (now : Nat)
    (store : PrimaryStore) (execution_id checkpoint_id : String)
    (new_state : Option (List (String × JVal))) :
    PrimaryStore × Except String Execution × List JVal :=
  match ctrlFork store with
  | .error msg => (store, Except.error msg, [])
  | .ok (pending, forked) =>
    let ev := mkForkAudit forkEventId now execution_id forked.id checkpoint_id new_state
    ({ pending with outbox := pending.outbox ++ [ev] }, Except.ok forked, [])

/-- Audit event enqueued by `rollback_and_run`. -/
def mkRollbackRunAudit (event_id : String) (now : Nat)
    (execution_id checkpoint_id : String) (final : ExecutionStatus)
    (fci : Option JVal) : OutboxEvent :=
  OutboxEvent.create event_id now OutboxEventType.rollback_performed
    "Execution" execution_id
    [("execution_id", JVal.s execution_id),
     ("checkpoint_id", JVal.s checkpoint_id),
     ("continued", JVal.b true),
     ("final_status", JVal.s final.pyValue),
     ("file_commit_id", fci.getD JVal.null)] none

/-- BatchExecutionCoordinator.rollback_and_run: fail fast when no graph is
supplied; otherwise, in one unit of work, controller rollback (extracting
the commit id from the pre-run state), controller run, a single
ROLLBACK_PERFORMED audit event, commit — and then, AFTER the commit,
`_restore_files_post_commit`, a best-effort direct file-store restore. -/
def Coordinator.rollback_and_run (c : Coordinator)
    (ctrlRollback ctrlRun : CtrlAction) (auditEventId : String) (now : Nat)
    (graph : Option Unit) (store : PrimaryStore)
    (execution_id checkpoint_id : String) :
    PrimaryStore × Except String Execution × List JVal :=
  match graph with
  | none => (store, Except.error "Graph is required for rollback_and_run operation", [])
  | some _ =>
    match ctrlRollback store with
    | .error msg => (store, Except.error msg, [])
    | .ok (s1, ex1) =>
      let fci := extractFileCommitId (some ex1)
      match ctrlRun s1 with
      | .error msg => (store, Except.error msg, [])
      | .ok (s2, ex2) =>
        let audit := mkRollbackRunAudit auditEventId now execution_id checkpoint_id
          ex2.status fci
        ({ s2 with outbox := s2.outbox ++ [audit] }, Except.ok ex2,
          c.restoreFilesPostCommit fci)

/-- Audit event enqueued by `fork_and_run`. -/
def mkForkRunAudit (event_id : String) (now : Nat)
    (source_execution_id fork_execution_id checkpoint_id : String)
    (final : ExecutionStatus) : OutboxEvent :=
  OutboxEvent.create event_id now OutboxEventType.execution_forked
    "Execution" fork_execution_id
    [("source_execution_id", JVal.s source_execution_id),
     ("fork_execution_id", JVal.s fork_execution_id),
     ("source_checkpoint_id", JVal.s checkpoint_id),
     ("ran_immediately", JVal.b true),
     ("final_status", JVal.s final.pyValue)] none

/-- BatchExecutionCoordinator.fork_and_run: fail fast when no graph is
supplied; otherwise one unit of work around controller fork, controller run
of the forked execution and the EXECUTION_FORKED audit event. No file-store
call is made after commit. -/
def Coordinator.fork_and_run (_c : Coordinator)
    (ctrlFork : CtrlAction) (ctrlRun : Execution → CtrlAction)
    (forkEventId : String) (now : Nat) (graph : Option Unit)
    (store : PrimaryStore) (execution_id checkpoint_id : String) :
    PrimaryStore × Except String Execution × List JVal :=
  match graph with
  | none => (store, Except.error "Graph is required for fork_and_run operation", [])
  | some _ =>
    match ctrlFork store with
    | .error msg => (store, Except.error msg, [])
    | .ok (s1, forked) =>
      match ctrlRun forked s1 with
      | .error msg => (store, Except.error msg, [])
      | .ok (s2, result) =>
        let ev := mkForkRunAudit forkEventId now execution_id forked.id checkpoint_id
          result.status
        ({ s2 with outbox := s2.outbox ++ [ev] }, Except.ok result, [])

/-! AgentGitStateAdapter.rollback
(wtb/infrastructure/adapters/agentgit_state_adapter.py). AgentGit is an
external package; its checkpoint repository is an oracle parameter, its
ToolManager is modelled from the adapter's use of it and the spec's
tool-track ordinal (the track is an ordered sequence of tool invocations
whose length is the position). The WTB-side checkpoint_files lookup
(`get_file_commit`) is an oracle from checkpoint id to linked commit id. -/

/-- Opaque tool invocation recorded on the tool track. -/
structure ToolInvocation where
  tok : String
deriving DecidableEq, Repr

/-- Modelled from the spec: the AgentGit ToolManager's tool track (agentgit
is an external collaborator, outside the sources). The tool-track position
is the ordinal of the last recorded invocation, i.e. the track's length. -/
structure ToolManager where
  track : List ToolInvocation
deriving DecidableEq, Repr

/-- Modelled from the spec: ToolManager.get_tool_track_position. -/
def ToolManager.get_tool_track_position (tm : ToolManager) : Nat := tm.track.length

/-- Modelled from the spec: ToolManager.rollback_to_position reverses the
track back to the given ordinal. -/
def ToolManager.rollback_to_position (tm : ToolManager) (position : Nat) : ToolManager :=
  { track := tm.track.take position }

/-- Modelled from the spec: ToolManager.restore_track_from_list replaces the
track with the checkpoint's recorded invocations. -/
def ToolManager.restore_track_from_list (_tm : ToolManager)
    (invocations : List ToolInvocation) : ToolManager :=
  { track := invocations }

/-- Serialized execution state as stored in a checkpoint's `session_state`
(the dict written by ExecutionState.to_dict: the same four fields). -/
structure SessionState where
  current_node_id : Option String
  workflow_variables : List (String × JVal)
  execution_path : List String
  node_results : List (String × JVal)

/-- The `mdp_state` dict the adapter's save_checkpoint writes into
checkpoint metadata: always carries these three keys. -/
structure MdpState where
  current_node_id : Option String
  workflow_variables : List (String × JVal)
  execution_path : List String

/-- Checkpoint metadata fields the adapter reads: `tool_track_position`
(None models an absent key, read with default 0) and `mdp_state`. -/
structure CheckpointMetadata where
  tool_track_position : Option Nat
  mdp_state : Option MdpState

/-- AgentGit checkpoint as the adapter consumes it. -/
structure AGCheckpoint where
  id : Nat
  checkpoint_name : Option String
  session_state : Option SessionState
  metadata : Option CheckpointMetadata
  tool_invocations : List ToolInvocation

/-- Python `a or b` on optional strings: keep `a` when truthy (present and
non-empty), else `b`. -/
def orTruthyStr (a b : Option String) : Option String :=
  match a with
  | some v => if v == "" then b else some v
  | none => b

/-- AgentGitStateAdapter._checkpoint_to_execution_state: prefer the
`mdp_state` metadata, falling back to `session_state`; `current_node_id`
falls back on Python-`or` truthiness, `workflow_variables` and
`execution_path` on key presence, `node_results` comes from the session
state only. -/
def checkpointToExecutionState (cp : AGCheckpoint) : ExecutionState :=
  let mdp : Option MdpState :=
    match cp.metadata with
    | some m => m.mdp_state
    | none => none
  let sess : Option SessionState := cp.session_state
  { current_node_id :=
      orTruthyStr (mdp.bind (fun m => m.current_node_id))
        (sess.bind (fun s => s.current_node_id)),
    workflow_variables :=
      match mdp with
      | some m => m.workflow_variables
      | none => (sess.map (fun s => s.workflow_variables)).getD [],
    execution_path :=
      match mdp with
      | some m => m.execution_path
      | none => (sess.map (fun s => s.execution_path)).getD [],
    node_results := (sess.map (fun s => s.node_results)).getD [] }

/-- AgentGitStateAdapter.rollback: load the checkpoint (ValueError when
absent); reverse the tool track to the checkpoint's `tool_track_position`
when the current position is greater; look up the linked file commit — the
restore of its files is an unimplemented TODO in the source, so the list of
commits actually restored is empty; restore the tool track from the
checkpoint's recorded invocations when non-empty; return the checkpoint's
execution state. The result carries the state, the final tool manager, and
the commits whose files were restored. -/
def AgentGitStateAdapter.rollback
    (checkpoint_repo : Nat → Option AGCheckpoint)
    (checkpoint_files : Nat → Option String)
    (tm : ToolManager) (to_checkpoint_id : Nat) :
    Except String (ExecutionState × ToolManager × List String) :=
  match checkpoint_repo to_checkpoint_id with
  | none =>
    Except.error ("Checkpoint " ++ toString to_checkpoint_id ++ " not found")
  | some checkpoint =>
    let target_position :=
      match checkpoint.metadata with
      | some m => m.tool_track_position.getD 0
      | none => 0
    let current_position := tm.get_tool_track_position
    let tm :=
      if current_position > target_position then
        tm.rollback_to_position target_position
      else tm
    let _file_commit_id := checkpoint_files to_checkpoint_id
    let restored : List String := []
    let tm :=
      if !checkpoint.tool_invocations.isEmpty then
        tm.restore_track_from_list checkpoint.tool_invocations
      else tm
    Except.ok (checkpointToExecutionState checkpoint, tm, restored)

/-! FileCleanupService (wtb/infrastructure/file_tracking/cleanup_service.py)
and FileCleanupResult (wtb/domain/interfaces/file_tracking.py). The
filesystem is a map from path to state; a present path carries the outcome
`os.remove` would have on it and whether `_backup_file`'s copy would
succeed (that helper catches every exception and returns None, so a failed
backup is recorded nowhere). `Path.mkdir` on the backup directory is NOT
inside a try block in the source, so its possible failure is a parameter
and surfaces as a raised error. -/

/-- Outcome of `os.remove` on a present path. -/
inductive RemoveOutcome where
  | ok
  | permissionError
  | osError (msg : String)
deriving DecidableEq, Repr

/-- State of one path: absent, or present with its remove outcome and
whether backing it up would succeed. -/
inductive PathState where
  | absent
  | present (removeOutcome : RemoveOutcome) (backupOk : Bool)
deriving DecidableEq, Repr

/-- A filesystem: the state of every path. -/
def FS := String → PathState

/-- Outcome lists accumulated by cleanup_orphaned_files' loop. -/
structure CleanupAcc where
  deleted_paths : List String
  backed_up_paths : List String
  skipped_paths : List String
  errors : List String
deriving DecidableEq, Repr

/-- The empty accumulator. -/
def CleanupAcc.empty : CleanupAcc :=
  { deleted_paths := [], backed_up_paths := [], skipped_paths := [], errors := [] }

/-- Fieldwise concatenation of accumulators. -/
def CleanupAcc.append (x y : CleanupAcc) : CleanupAcc :=
  { deleted_paths := x.deleted_paths ++ y.deleted_paths,
    backed_up_paths := x.backed_up_paths ++ y.backed_up_paths,
    skipped_paths := x.skipped_paths ++ y.skipped_paths,
    errors := x.errors ++ y.errors }

/-- FileCleanupResult (frozen dataclass): counts, outcome path lists, error
messages, dry-run flag. -/
structure FileCleanupResult where
  checkpoint_id : Nat
  execution_id : String
  files_deleted : Nat
  files_backed_up : Nat
  files_skipped : Nat
  deleted_paths : List String
  backed_up_paths : List String
  skipped_paths : List String
  errors : List String
  dry_run : Bool
deriving DecidableEq, Repr

/-- FileCleanupResult.success: derived, true exactly when no errors were
collected. -/
def FileCleanupResult.success (r : FileCleanupResult) : Bool :=
  r.errors.length == 0

/-- The refusal message of the safety check, mentioning the cap. -/
def refusalMsg (count max_files : Nat) : String :=
  "Refusing to delete " ++ toString count ++
    " files (exceeds max_files limit of " ++ toString max_files ++
    "). Increase max_files if this is intentional."

/-- Per-path error message for a PermissionError. -/
def permissionDeniedMsg (path : String) : String :=
  "Permission denied: " ++ path

/-- Per-path error message for an OSError. -/
def osErrorMsg (path : String) (msg : String) : String :=
  "OS error for " ++ path ++ ": " ++ msg

/-- Conditional recording of a path in backed_up_paths: in dry-run mode the
condition is only that a backup dir is set; in live mode it is that a
backup dir is set and the copy succeeded. -/
def addWouldBackup (cond : Bool) (p : String) (acc : CleanupAcc) : CleanupAcc :=
  if cond then { acc with backed_up_paths := acc.backed_up_paths ++ [p] } else acc

/-- The per-path loop of cleanup_orphaned_files. A missing path is skipped;
in dry-run mode the path is recorded as would-be-deleted (and would-be-
backed-up when a backup dir is set); in live mode the path is backed up
first when a backup dir is set and the copy succeeds (a failed copy is
silently dropped), then removed — a PermissionError or OSError from the
removal is recorded in `errors` and `skipped_paths` and the loop continues
with the remaining paths. -/
def cleanupLoop (backup_dir : Option String) (dry_run : Bool) :
    FS → List String → CleanupAcc → CleanupAcc × FS
  | fs, [], acc => (acc, fs)
  | fs, p :: rest, acc =>
    match fs p with
    | .absent =>
      cleanupLoop backup_dir dry_run fs rest
        { acc with skipped_paths := acc.skipped_paths ++ [p] }
    | .present ro bok =>
      if dry_run then
        cleanupLoop backup_dir dry_run fs rest
          { addWouldBackup backup_dir.isSome p acc with
            deleted_paths :=
              (addWouldBackup backup_dir.isSome p acc).deleted_paths ++ [p] }
      else
        match ro with
        | .ok =>
          cleanupLoop backup_dir dry_run
            (fun q => if q = p then PathState.absent else fs q) rest
            { addWouldBackup (backup_dir.isSome && bok) p acc with
              deleted_paths :=
                (addWouldBackup (backup_dir.isSome && bok) p acc).deleted_paths ++ [p] }
        | .permissionError =>
          cleanupLoop backup_dir dry_run fs rest
            { addWouldBackup (backup_dir.isSome && bok) p acc with
              errors :=
                (addWouldBackup (backup_dir.isSome && bok) p acc).errors ++
                  [permissionDeniedMsg p],
              skipped_paths :=
                (addWouldBackup (backup_dir.isSome && bok) p acc).skipped_paths ++ [p] }
        | .osError m =>
          cleanupLoop backup_dir dry_run fs rest
            { addWouldBackup (backup_dir.isSome && bok) p acc with
              errors :=
                (addWouldBackup (backup_dir.isSome && bok) p acc).errors ++
                  [osErrorMsg p m],
              skipped_paths :=
                (addWouldBackup (backup_dir.isSome && bok) p acc).skipped_paths ++ [p] }

/-- FileCleanupService.cleanup_orphaned_files. The safety check refuses
(returning, not raising) when more paths than `max_files` arrive outside
dry-run. Then, in live mode with a backup dir, the backup directory is
created — `mkdir_ok = false` models that call raising, which nothing in
the source catches. Otherwise the per-path loop runs and the result is
assembled from its accumulator. Returns the result and the final
filesystem. -/
def cleanup_orphaned_files (mkdir_ok : Bool) (fs : FS)
    (checkpoint_id : Nat) (execution_id : String)
    (orphaned_paths : List String) (backup_dir : Option String)
    (dry_run : Bool) (max_files : Nat) :
    Except String (FileCleanupResult × FS) :=
  if decide (orphaned_paths.length > max_files) && !dry_run then
    Except.ok
      ({ checkpoint_id := checkpoint_id, execution_id := execution_id,
         files_deleted := 0, files_backed_up := 0,
         files_skipped := orphaned_paths.length,
         deleted_paths := [], backed_up_paths := [],
         skipped_paths := orphaned_paths,
         errors := [refusalMsg orphaned_paths.length max_files],
         dry_run := dry_run }, fs)
  else if backup_dir.isSome && !dry_run && !mkdir_ok then
    Except.error "backup directory creation failed"
  else
    let out := cleanupLoop backup_dir dry_run fs orphaned_paths CleanupAcc.empty
    Except.ok
      ({ checkpoint_id := checkpoint_id, execution_id := execution_id,
         files_deleted := out.1.deleted_paths.length,
         files_backed_up := out.1.backed_up_paths.length,
         files_skipped := out.1.skipped_paths.length,
         deleted_paths := out.1.deleted_paths,
         backed_up_paths := out.1.backed_up_paths,
         skipped_paths := out.1.skipped_paths,
         errors := out.1.errors,
         dry_run := dry_run }, out.2)

/-! Concrete fixtures used by the claim theorems. -/

/-- An event submitted with a client idempotency key. -/
def c1Event : OutboxEvent :=
  { id := none, event_id := "evt-1", event_type := OutboxEventType.execution_paused,
    aggregate_type := "Execution", aggregate_id := "exec-1", payload := [],
    idempotency_key := some "req-abc", status := OutboxStatus.pending,
    retry_count := 0, max_retries := 5, created_at := 1, processed_at := none,
    published_at := none, last_error := none }

/-- First event stored under event UUID "dup". -/
def c1DupA : OutboxEvent :=
  { c1Event with event_id := "dup", aggregate_id := "agg-first",
                 idempotency_key := some "same-key" }

/-- Second, different event submitted with the same event UUID "dup" and the
same idempotency key. -/
def c1DupB : OutboxEvent :=
  { c1Event with event_id := "dup", aggregate_id := "agg-second",
                 idempotency_key := some "same-key" }

/-- A pending ROLLBACK_FILE_RESTORE outbox row, as the coordinator's
rollback enqueues it. -/
def c2RestoreRow : OutboxEventORM :=
  { id := some 1, event_id := "evt-restore",
    event_type := OutboxEventType.rollback_file_restore,
    aggregate_type := "Execution", aggregate_id := "exec-1",
    payload := [("source_checkpoint_id", JVal.s "cp-7"),
                ("target_checkpoint_id", JVal.s "cp-7"),
                ("source_commit_id", JVal.s "F2"),
                ("execution_id", JVal.s "exec-1")],
    idempotency_key := none, status := OutboxStatus.pending, retry_count := 0,
    max_retries := 5, created_at := 1, processed_at := none, last_error := none }

/-- The same row after one processor pass. -/
def c2FailedRow : OutboxEventORM :=
  { c2RestoreRow with
    status := OutboxStatus.failed, retry_count := 1,
    last_error := some (noHandlerMsg OutboxEventType.rollback_file_restore) }

/-- The mdp_state the adapter stored with checkpoint 42. -/
def c5Mdp : MdpState :=
  { current_node_id := some "node-2",
    workflow_variables := [("x", JVal.n 1)],
    execution_path := ["node-1", "node-2"] }

/-- Checkpoint 42: tool-track ordinal 2, two recorded tool invocations, a
serialized session state, and a linked file commit "F2" in the WTB store. -/
def c5Checkpoint : AGCheckpoint :=
  { id := 42, checkpoint_name := some "cp-42",
    session_state := some
      { current_node_id := some "node-2",
        workflow_variables := [("x", JVal.n 1)],
        execution_path := ["node-1", "node-2"],
        node_results := [("node-1", JVal.b true)] },
    metadata := some { tool_track_position := some 2, mdp_state := some c5Mdp },
    tool_invocations := [{ tok := "t1" }, { tok := "t2" }] }

/-- AgentGit checkpoint repository holding only checkpoint 42. -/
def c5Repo : Nat → Option AGCheckpoint :=
  fun i => if i = 42 then some c5Checkpoint else none

/-- WTB checkpoint_files links: checkpoint 42 is linked to commit "F2". -/
def c5Links : Nat → Option String :=
  fun i => if i = 42 then some "F2" else none

/-- Tool manager currently at ordinal 4 (two invocations past the
checkpoint). -/
def c5TM : ToolManager :=
  { track := [{ tok := "t1" }, { tok := "t2" }, { tok := "t3" }, { tok := "t4" }] }

/-- Execution whose restored state carries the workflow variable
`file_commit_id = "F7"`. -/
def c3Exec : Execution :=
  { id := "exec-1", workflow_id := "wf-1", status := ExecutionStatus.paused,
    state := some
      { current_node_id := some "n1",
        workflow_variables := [("file_commit_id", JVal.s "F7")],
        execution_path := ["n1"], node_results := [] } }

/-- Controller rollback outcome: succeeds and returns `c3Exec`, writing the
state change into the pending store. -/
def c3Ctrl : CtrlAction :=
  fun store =>
    Except.ok ({ store with executions := [c3Exec] }, c3Exec)

/-- A coordinator constructed without a file-tracking service. -/
def c3NoFT : Coordinator :=
  { has_file_tracking := false, file_tracking_available := false }

/-- Primary store before the operation. -/
def c3Store : PrimaryStore := { executions := [], outbox := [] }

/-- A FAILED outbox row that has exhausted its retries
(retry_count = max_retries = 5). -/
def c4CapRow : OutboxEventORM :=
  { id := some 3, event_id := "evt-cap",
    event_type := OutboxEventType.checkpoint_verify,
    aggregate_type := "Execution", aggregate_id := "exec-1",
    payload := [("checkpoint_id", JVal.n 42)],
    idempotency_key := none, status := OutboxStatus.failed, retry_count := 5,
    max_retries := 5, created_at := 2, processed_at := none,
    last_error := some "Checkpoint 42 not found in AgentGit" }

/-- Coordinator configured WITH an available file-tracking service. -/
def c6FT : Coordinator :=
  { has_file_tracking := true, file_tracking_available := true }

/-- Controller run outcome reusing the rollback fixture's execution. -/
def c6CtrlRun : CtrlAction := fun store => Except.ok (store, c3Exec)

/-- A FAILED row below the retry cap (fixture for the retry witnesses). -/
def c4BelowRow : OutboxEventORM :=
  { c4CapRow with id := some 4, event_id := "evt-below", retry_count := 2 }

/-- Recording a backup touches no other outcome list. -/
theorem addWouldBackup_deleted (cond : Bool) (p : String) (acc : CleanupAcc) :
    (addWouldBackup cond p acc).deleted_paths = acc.deleted_paths := by
  cases cond <;> rfl

/-- Recording a backup leaves skipped_paths unchanged. -/
theorem addWouldBackup_skipped (cond : Bool) (p : String) (acc : CleanupAcc) :
    (addWouldBackup cond p acc).skipped_paths = acc.skipped_paths := by
  cases cond <;> rfl

/-- Recording a backup leaves errors unchanged. -/
theorem addWouldBackup_errors (cond : Bool) (p : String) (acc : CleanupAcc) :
    (addWouldBackup cond p acc).errors = acc.errors := by
  cases cond <;> rfl

/-- C1. The spec asks `add` to preserve the supplied idempotency key and to
reject a second add that reuses an `event_id` or a non-null
`idempotency_key`, returning a conflict and leaving the stored event
unchanged.  In the code this fails twice: the SQLAlchemy repository's
`_to_orm`/`_to_domain` never copy `idempotency_key`, so the stored row and
the returned event both carry NULL instead of the supplied key; and the
mock repository's `add` performs no uniqueness check at all — a second add
with the same event UUID succeeds and silently replaces the originally
stored event. -/
theorem c1_add_drops_idempotency_key_and_mock_add_never_conflicts :
    ((SQLAlchemyOutboxRepository.add [] c1Event).2.idempotency_key = none
      ∧ c1Event.idempotency_key = some "req-abc"
      ∧ ((SQLAlchemyOutboxRepository.add [] c1Event).1.map
            (fun o => o.idempotency_key)) = [none])
    ∧ ((((MockOutboxRepository.empty.add c1DupA).1.add c1DupB).1.get_by_id
          "dup").map (fun e => e.aggregate_id) = some "agg-second"
      ∧ c1DupA.aggregate_id = "agg-first") := by
  exact ⟨⟨rfl, rfl, rfl⟩, by decide, rfl⟩

/-- C2. The spec's handler table contains ROLLBACK_FILE_RESTORE with
handler semantics invoking restoreCommit(source_commit_id).  In the code
the processor's handler table does not contain ROLLBACK_FILE_RESTORE (and
the processor never calls restoreCommit at all), so a pending event of that
type takes the no-handler branch of `_process_batch`: it is marked FAILED
with the no-handler ValueError message and an incremented retry count —
whatever the registered handlers would do and whatever the clock says —
and, while below the retry cap, it keeps being returned by
get_failed_for_retry only to fail identically again. -/
theorem c2_no_rollback_file_restore_handler :
    OutboxProcessor.handledTypes OutboxEventType.rollback_file_restore = false
    ∧ (∀ (runHandler : OutboxEvent → Except String Unit) (now : Nat),
        OutboxProcessor.process_batch runHandler now 50 [c2RestoreRow] =
          Except.ok ([c2FailedRow], 0))
    ∧ SQLAlchemyOutboxRepository.get_failed_for_retry [c2FailedRow] 50 =
        [SQLAlchemyOutboxRepository.to_domain c2FailedRow] := by
  exact ⟨rfl, fun _ _ => rfl, rfl⟩

/-- C5. The spec says rollback(checkpoint_id) returns the checkpoint's
state, reverses the tool track to the checkpoint's ordinal, and restores
the files of the linked commit when there is one.  The code returns the
state and reverses the tool track, but the file restore is an
unimplemented TODO (`pass`): at a checkpoint whose link is "F2" the
adapter looks the link up and restores nothing — the list of restored
commits is empty — contradicting both the spec and the function's own
step-3 docstring. -/
theorem c5_adapter_rollback_restores_state_but_never_files :
    c5Links 42 = some "F2"
    ∧ AgentGitStateAdapter.rollback c5Repo c5Links c5TM 42 =
        Except.ok
          ({ current_node_id := some "node-2",
             workflow_variables := [("x", JVal.n 1)],
             execution_path := ["node-1", "node-2"],
             node_results := [("node-1", JVal.b true)] },
           { track := [{ tok := "t1" }, { tok := "t2" }] },
           ([] : List String)) := by
  exact ⟨rfl, rfl⟩

/-- C3 counterexample. With a coordinator built without a file-tracking
service (its optional dependency), a rollback whose restored state yields
file_commit_id "F7" commits successfully — but the committed outbox holds
no ROLLBACK_FILE_RESTORE event at all, refuting the claim that an
extracted file_commit_id alone guarantees the restore event commits with
the state change. -/
theorem c3_counterexample_no_restore_event_without_file_tracking :
    extractFileCommitId (some c3Exec) = some (JVal.s "F7")
    ∧ ((Coordinator.rollback c3NoFT c3Ctrl "aid-1" "rid-1" 5 c3Store
          "exec-1" "cp-9").2.1 = Except.ok c3Exec)
    ∧ ((Coordinator.rollback c3NoFT c3Ctrl "aid-1" "rid-1" 5 c3Store
          "exec-1" "cp-9").1.outbox.filter
            (fun ev => ev.event_type == OutboxEventType.rollback_file_restore)) = [] := by
  exact ⟨rfl, rfl, rfl⟩

/-- C3 (amended). Characterization of the coordinator rollback transaction:
on any controller error the unit of work is rolled back — the committed
store is exactly the original and the error is surfaced; on success the
committed store is the controller's pending store with the
ROLLBACK_PERFORMED audit event appended and, exactly when the extracted
file_commit_id is truthy AND a file-tracking service is configured, the
ROLLBACK_FILE_RESTORE event appended after it — all in the same commit.
No post-commit file-store call is made either way. -/
theorem c3_rollback_transaction (c : Coordinator) (ctrl : CtrlAction)
    (aId rId : String) (now : Nat) (store : PrimaryStore) (eid cpid : String) :
    (∀ msg, ctrl store = Except.error msg →
      Coordinator.rollback c ctrl aId rId now store eid cpid =
        (store, Except.error msg, []))
    ∧ (∀ pending ex, ctrl store = Except.ok (pending, ex) →
        Coordinator.rollback c ctrl aId rId now store eid cpid =
          ({ pending with
             outbox := pending.outbox ++
               [mkRollbackAudit aId now eid cpid (extractFileCommitId (some ex))] ++
               (if optTruthy (extractFileCommitId (some ex)) && c.has_file_tracking
                then [mkRollbackFileRestore rId now eid cpid
                        (extractFileCommitId (some ex))]
                else []) },
           Except.ok ex, [])) := by
  constructor
  · intro msg h
    unfold Coordinator.rollback
    rw [h]
  · intro pending ex h
    unfold Coordinator.rollback
    rw [h]
    by_cases hft : optTruthy (extractFileCommitId (some ex)) && c.has_file_tracking
    · simp [hft, List.append_assoc]
    · simp [hft]

/-- Witness for the C3 transaction theorem at a concrete controller: the
hypotheses are discharged at `c3Ctrl`, whose outcome is known. -/
theorem c3_rollback_transaction_witness :
    Coordinator.rollback c3NoFT c3Ctrl "aid-1" "rid-1" 5 c3Store "exec-1" "cp-9" =
      ({ { c3Store with executions := [c3Exec] } with
         outbox := ({ c3Store with executions := [c3Exec] } : PrimaryStore).outbox ++
           [mkRollbackAudit "aid-1" 5 "exec-1" "cp-9"
              (extractFileCommitId (some c3Exec))] ++
           (if optTruthy (extractFileCommitId (some c3Exec)) &&
                c3NoFT.has_file_tracking
            then [mkRollbackFileRestore "rid-1" 5 "exec-1" "cp-9"
                    (extractFileCommitId (some c3Exec))]
            else []) },
       Except.ok c3Exec, []) :=
  (c3_rollback_transaction c3NoFT c3Ctrl "aid-1" "rid-1" 5 c3Store
    "exec-1" "cp-9").2 { c3Store with executions := [c3Exec] } c3Exec rfl

/-- C4 counterexample. The claim says retryFailedEvents() resets a FAILED
event with retry_count ≥ max_retries to PENDING.  It does not: the method
only fetches events through get_failed_for_retry, which excludes events at
or above the cap, so on a store holding exactly such an event it returns 0
and leaves the event FAILED with all fields unchanged. -/
theorem c4_counterexample_cap_event_not_reset :
    c4CapRow.status = OutboxStatus.failed
    ∧ c4CapRow.retry_count = c4CapRow.max_retries
    ∧ OutboxProcessor.retry_failed_events [c4CapRow] = Except.ok ([c4CapRow], 0)
    ∧ SQLAlchemyOutboxRepository.get_failed_for_retry [c4CapRow] 100 = [] := by
  exact ⟨rfl, rfl, rfl, rfl⟩

/-- C6 counterexample. The claim says no coordinator operation touches the
file store after its commit.  rollback_and_run does: after its unit of work
commits, `_restore_files_post_commit` calls restore_commit on the extracted
file commit id ("F7" here) whenever a file-tracking service is configured
and available — one post-commit file-store call, not zero. -/
theorem c6_counterexample_rollback_and_run_restores_post_commit :
    (Coordinator.rollback_and_run c6FT c3Ctrl c6CtrlRun "aid-2" 6 (some ())
        c3Store "exec-1" "cp-9").2.2 = [JVal.s "F7"]
    ∧ [JVal.s "F7"] ≠ ([] : List JVal) := by
  refine ⟨rfl, ?_⟩
  simp

/-- C6 (amended). Post-commit file-store calls of the four coordinator
operations: rollback, fork and fork_and_run make none, on every input and
every outcome; rollback_and_run, when its unit of work commits, makes
exactly the calls of `_restore_files_post_commit` — one best-effort
restore_commit of the extracted commit id when that id is truthy and a
file-tracking service is configured and reports available, none
otherwise. -/
theorem c6_post_commit_file_store_calls (c : Coordinator) :
    (∀ ctrl aId rId now store eid cpid,
      (Coordinator.rollback c ctrl aId rId now store eid cpid).2.2 = [])
    ∧ (∀ ctrl fId now store eid cpid ns,
        (Coordinator.fork c ctrl fId now store eid cpid ns).2.2 = [])
    ∧ (∀ ctrlF ctrlR fId now g store eid cpid,
        (Coordinator.fork_and_run c ctrlF ctrlR fId now g store eid cpid).2.2 = [])
    ∧ (∀ ctrlRb ctrlRun aId now store eid cpid s1 ex1 s2 ex2,
        ctrlRb store = Except.ok (s1, ex1) → ctrlRun s1 = Except.ok (s2, ex2) →
        (Coordinator.rollback_and_run c ctrlRb ctrlRun aId now (some ()) store
            eid cpid).2.2 =
          c.restoreFilesPostCommit (extractFileCommitId (some ex1)))
    ∧ (∀ fci, c.restoreFilesPostCommit fci =
        if optTruthy fci && c.has_file_tracking && c.file_tracking_available
        then [fci.getD JVal.null] else []) := by
  refine ⟨?_, ?_, ?_, ?_, ?_⟩
  · intro ctrl aId rId now store eid cpid
    unfold Coordinator.rollback
    cases h : ctrl store with
    | error msg => rfl
    | ok pe =>
      obtain ⟨pending, ex⟩ := pe
      by_cases hft : optTruthy (extractFileCommitId (some ex)) && c.has_file_tracking
      · simp [hft]
      · simp [hft]
  · intro ctrl fId now store eid cpid ns
    unfold Coordinator.fork
    cases h : ctrl store with
    | error msg => rfl
    | ok pe => rfl
  · intro ctrlF ctrlR fId now g store eid cpid
    unfold Coordinator.fork_and_run
    cases g with
    | none => rfl
    | some u =>
      cases hf : ctrlF store with
      | error msg => rfl
      | ok pe =>
        obtain ⟨s1, forked⟩ := pe
        dsimp only
        cases hr : ctrlR forked s1 with
        | error msg => rfl
        | ok pe2 => rfl
  · intro ctrlRb ctrlRun aId now store eid cpid s1 ex1 s2 ex2 hrb hrun
    unfold Coordinator.rollback_and_run
    rw [hrb]
    dsimp only
    rw [hrun]
  · intro fci
    unfold Coordinator.restoreFilesPostCommit
    by_cases h1 : optTruthy fci
    · by_cases h2 : c.has_file_tracking
      · by_cases h3 : c.file_tracking_available
        · simp [h1, h2, h3]
        · simp [h1, h2, h3]
      · simp [h1, h2]
    · simp [h1]

/-- Witness for the C6 characterization, applying the theorem's
rollback_and_run clause at the concrete fixtures. -/
theorem c6_post_commit_file_store_calls_witness :
    (Coordinator.rollback_and_run c6FT c3Ctrl c6CtrlRun "aid-2" 6 (some ())
        c3Store "exec-1" "cp-9").2.2 =
      c6FT.restoreFilesPostCommit (extractFileCommitId (some c3Exec)) :=
  (c6_post_commit_file_store_calls c6FT).2.2.2.1 c3Ctrl c6CtrlRun "aid-2" 6
    c3Store "exec-1" "cp-9" { c3Store with executions := [c3Exec] } c3Exec
    { c3Store with executions := [c3Exec] } c3Exec rfl rfl

/-- C7. The spec's safety cap: when more paths than max_files arrive
outside dry-run, the service refuses before touching anything — the result
counts zero deletions and zero backups, skips exactly the full input path
list, carries the refusal message (which names the cap), and the
filesystem comes back unchanged. -/
theorem c7_cleanup_cap_refusal (mkdir_ok : Bool) (fs : FS) (cid : Nat)
    (eid : String) (paths : List String) (backup_dir : Option String)
    (max_files : Nat) (hcap : max_files < paths.length) :
    cleanup_orphaned_files mkdir_ok fs cid eid paths backup_dir false max_files =
      Except.ok
        ({ checkpoint_id := cid, execution_id := eid, files_deleted := 0,
           files_backed_up := 0, files_skipped := paths.length,
           deleted_paths := [], backed_up_paths := [],
           skipped_paths := paths,
           errors := [refusalMsg paths.length max_files],
           dry_run := false }, fs) := by
  unfold cleanup_orphaned_files
  simp [hcap]

/-- Witness for the cap refusal: 3 orphaned paths against a cap of 2. -/
theorem c7_cleanup_cap_refusal_witness :
    cleanup_orphaned_files true (fun _ => PathState.absent) 9 "exec-9"
        ["a.py", "b.py", "c.py"] none false 2 =
      Except.ok
        ({ checkpoint_id := 9, execution_id := "exec-9", files_deleted := 0,
           files_backed_up := 0, files_skipped := 3,
           deleted_paths := [], backed_up_paths := [],
           skipped_paths := ["a.py", "b.py", "c.py"],
           errors := [refusalMsg 3 2],
           dry_run := false }, fun _ => PathState.absent) :=
  c7_cleanup_cap_refusal true (fun _ => PathState.absent) 9 "exec-9"
    ["a.py", "b.py", "c.py"] none 2 (by decide)

/-- C8 counterexample. The claim says a call that is not refused by the cap
never raises.  In live mode with a backup directory set, the source calls
Path.mkdir on that directory outside any try block; when that creation
fails (for example with a PermissionError), the exception propagates out of
cleanup_orphaned_files — here already on an empty path list that the cap
cannot refuse. -/
theorem c8_counterexample_backup_dir_creation_raises :
    cleanup_orphaned_files false (fun _ => PathState.absent) 1 "exec-1" []
      (some ".rollback_backup") false 100 =
      Except.error "backup directory creation failed" := rfl

/-- C10. In live cleanup with a backup directory, a path whose backup copy
fails (`_backup_file` catches every exception and returns None) is still
deleted, does not appear in backed_up_paths, and contributes no entry to
errors — so the result reports success even though the requested backup
never happened. -/
theorem c10_backup_failure_swallowed (fs : FS) (p d : String) (cid : Nat)
    (eid : String) (hp : fs p = PathState.present RemoveOutcome.ok false) :
    cleanup_orphaned_files true fs cid eid [p] (some d) false 100 =
      Except.ok
        ({ checkpoint_id := cid, execution_id := eid, files_deleted := 1,
           files_backed_up := 0, files_skipped := 0, deleted_paths := [p],
           backed_up_paths := [], skipped_paths := [], errors := [],
           dry_run := false },
         fun q => if q = p then PathState.absent else fs q)
    ∧ ({ checkpoint_id := cid, execution_id := eid, files_deleted := 1,
         files_backed_up := 0, files_skipped := 0, deleted_paths := [p],
         backed_up_paths := [], skipped_paths := [], errors := [],
         dry_run := false } : FileCleanupResult).success = true := by
  constructor
  · unfold cleanup_orphaned_files
    simp [cleanupLoop, hp, CleanupAcc.empty, addWouldBackup]
  · rfl

/-- Witness for the swallowed-backup theorem at a concrete filesystem with
one present file whose backup copy fails. -/
theorem c10_backup_failure_swallowed_witness :
    cleanup_orphaned_files true
        (fun q => if q = "data.csv" then PathState.present RemoveOutcome.ok false
                  else PathState.absent) 4 "exec-4" ["data.csv"]
        (some ".rollback_backup") false 100 =
      Except.ok
        ({ checkpoint_id := 4, execution_id := "exec-4", files_deleted := 1,
           files_backed_up := 0, files_skipped := 0,
           deleted_paths := ["data.csv"], backed_up_paths := [],
           skipped_paths := [], errors := [], dry_run := false },
         fun q => if q = "data.csv" then PathState.absent
                  else (fun q' => if q' = "data.csv" then
                          PathState.present RemoveOutcome.ok false
                        else PathState.absent) q) :=
  (c10_backup_failure_swallowed
    (fun q => if q = "data.csv" then PathState.present RemoveOutcome.ok false
              else PathState.absent) "data.csv" ".rollback_backup" 4 "exec-4"
    (by decide)).1

/-! Lemmas about the repository's first-match row update and the two
processing folds, used by the retry-semantics theorems. -/

/-- A row whose id differs from the updated event's survives the update
unchanged. -/
theorem updateRows_mem_of_ne (e : OutboxEvent) {r : OutboxEventORM} :
    ∀ {rows rows' : List OutboxEventORM},
      updateRows e rows = some rows' → r ∈ rows → r.id ≠ e.id → r ∈ rows' := by
  intro rows
  induction rows with
  | nil => intro rows' h hr hne; simp [updateRows] at h
  | cons orm rest ih =>
    intro rows' h hr hne
    rw [updateRows] at h
    by_cases hid : orm.id == e.id
    · rw [if_pos hid] at h
      simp only [Option.some.injEq] at h
      subst h
      rcases List.mem_cons.mp hr with hEq | hMem
      · exact absurd (hEq ▸ eq_of_beq hid) hne
      · exact List.mem_cons_of_mem _ hMem
    · rw [if_neg hid] at h
      rcases ho : updateRows e rest with _ | l'
      · rw [ho] at h; simp at h
      · rw [ho] at h
        simp only [Option.map_some', Option.some.injEq] at h
        subst h
        rcases List.mem_cons.mp hr with hEq | hMem
        · exact hEq ▸ List.mem_cons_self _ _
        · exact List.mem_cons_of_mem _ (ih ho hMem hne)

/-- Under distinct row ids, updating the event whose id is `r.id` puts the
field-updated version of `r` into the result. -/
theorem updateRows_hit (e : OutboxEvent) {r : OutboxEventORM} :
    ∀ {rows rows' : List OutboxEventORM},
      (rows.map (fun o => o.id)).Nodup → r ∈ rows → r.id = e.id →
      updateRows e rows = some rows' → applyUpdateFields r e ∈ rows' := by
  intro rows
  induction rows with
  | nil => intro rows' _ hr; simp at hr
  | cons orm rest ih =>
    intro rows' hN hr hre h
    rw [updateRows] at h
    rw [List.map_cons, List.nodup_cons] at hN
    obtain ⟨hhead, htail⟩ := hN
    by_cases hid : orm.id == e.id
    · rw [if_pos hid] at h
      simp only [Option.some.injEq] at h
      subst h
      rcases List.mem_cons.mp hr with hEq | hMem
      · subst hEq; exact List.mem_cons_self _ _
      · exact absurd
          (by rw [eq_of_beq hid, ← hre]; exact List.mem_map_of_mem _ hMem) hhead
    · rw [if_neg hid] at h
      rcases ho : updateRows e rest with _ | l'
      · rw [ho] at h; simp at h
      · rw [ho] at h
        simp only [Option.map_some', Option.some.injEq] at h
        subst h
        rcases List.mem_cons.mp hr with hEq | hMem
        · exact absurd (show orm.id = e.id by rw [← hEq]; exact hre)
            (by simpa using hid)
        · exact List.mem_cons_of_mem _ (ih htail hMem hre ho)

/-- The update preserves the sequence of row ids. -/
theorem updateRows_ids (e : OutboxEvent) :
    ∀ {rows rows' : List OutboxEventORM},
      updateRows e rows = some rows' →
      rows'.map (fun o => o.id) = rows.map (fun o => o.id) := by
  intro rows
  induction rows with
  | nil => intro rows' h; simp [updateRows] at h
  | cons orm rest ih =>
    intro rows' h
    rw [updateRows] at h
    by_cases hid : orm.id == e.id
    · rw [if_pos hid] at h
      simp only [Option.some.injEq] at h
      subst h
      rfl
    · rw [if_neg hid] at h
      rcases ho : updateRows e rest with _ | l'
      · rw [ho] at h; simp at h
      · rw [ho] at h
        simp only [Option.map_some', Option.some.injEq] at h
        subst h
        simp [ih ho]

/-- The update succeeds whenever some row carries the event's id. -/
theorem updateRows_some (e : OutboxEvent) :
    ∀ {rows : List OutboxEventORM}, e.id ∈ rows.map (fun o => o.id) →
      ∃ rows', updateRows e rows = some rows' := by
  intro rows
  induction rows with
  | nil => intro h; simp at h
  | cons orm rest ih =>
    intro h
    rw [updateRows]
    by_cases hid : orm.id == e.id
    · exact ⟨_, by rw [if_pos hid]⟩
    · rw [List.map_cons, List.mem_cons] at h
      rcases h with hEq | hMem
      · exact absurd (show orm.id = e.id from hEq.symm) (by simpa using hid)
      · obtain ⟨l', hl'⟩ := ih hMem
        exact ⟨orm :: l', by rw [if_neg hid, hl']; rfl⟩

/-- Step equation of the retry loop when the head event is retried. -/
theorem retryFold_cons_retry {b : OutboxEvent} (rest : List OutboxEvent)
    {rows rows1 : List OutboxEventORM} (n : Nat) (hcr : b.can_retry = true)
    (hu : updateRows { b with status := OutboxStatus.pending } rows = some rows1) :
    retryFold (b :: rest) rows n = retryFold rest rows1 (n + 1) := by
  rw [retryFold, if_pos hcr, hu]

/-- Step equation of the retry loop when the head event is skipped. -/
theorem retryFold_cons_skip {b : OutboxEvent} (rest : List OutboxEvent)
    {rows : List OutboxEventORM} (n : Nat) (hcr : b.can_retry = false) :
    retryFold (b :: rest) rows n = retryFold rest rows n := by
  rw [retryFold, if_neg (by simp [hcr])]

/-- A row untouched by every retried event of the batch survives the retry
loop. -/
theorem retryFold_untouched {r : OutboxEventORM} :
    ∀ (batch : List OutboxEvent) {rows rows' : List OutboxEventORM} {n n' : Nat},
      r ∈ rows → (∀ b ∈ batch, b.can_retry = true → b.id ≠ r.id) →
      retryFold batch rows n = Except.ok (rows', n') → r ∈ rows' := by
  intro batch
  induction batch with
  | nil =>
    intro rows rows' n n' hr _ h
    rw [retryFold] at h
    simp only [Except.ok.injEq, Prod.mk.injEq] at h
    obtain ⟨rfl, rfl⟩ := h
    exact hr
  | cons b rest ih =>
    intro rows rows' n n' hr hb h
    by_cases hcr : b.can_retry = true
    · rcases hu : updateRows { b with status := OutboxStatus.pending } rows with _ | rows1
      · rw [retryFold, if_pos hcr, hu] at h; simp at h
      · rw [retryFold_cons_retry rest n hcr hu] at h
        refine ih (updateRows_mem_of_ne _ hu hr ?_) (fun b' hb' => hb b' (List.mem_cons_of_mem _ hb')) h
        intro hcontra
        exact hb b (List.mem_cons_self _ _) hcr hcontra.symm
    · rw [retryFold_cons_skip rest n (by simpa using hcr)] at h
      exact ih hr (fun b' hb' => hb b' (List.mem_cons_of_mem _ hb')) h

/-- The retry loop succeeds whenever every retried event's id is among the
row ids, and it preserves the sequence of row ids. -/
theorem retryFold_ok :
    ∀ (batch : List OutboxEvent) (rows : List OutboxEventORM) (n : Nat),
      (∀ b ∈ batch, b.can_retry = true → b.id ∈ rows.map (fun o => o.id)) →
      ∃ rows' n', retryFold batch rows n = Except.ok (rows', n') ∧
        rows'.map (fun o => o.id) = rows.map (fun o => o.id) := by
  intro batch
  induction batch with
  | nil =>
    intro rows n _
    exact ⟨rows, n, by rw [retryFold], rfl⟩
  | cons b rest ih =>
    intro rows n hpre
    by_cases hcr : b.can_retry = true
    · obtain ⟨rows1, hu⟩ :=
        updateRows_some { b with status := OutboxStatus.pending } (hpre b (List.mem_cons_self _ _) hcr)
      have hids := updateRows_ids _ hu
      obtain ⟨rows', n', hok, hids'⟩ := ih rows1 (n + 1)
        (fun b' hb' hcr' => hids ▸ hpre b' (List.mem_cons_of_mem _ hb') hcr')
      exact ⟨rows', n', by rw [retryFold_cons_retry rest n hcr hu]; exact hok,
        hids'.trans hids⟩
    · obtain ⟨rows', n', hok, hids'⟩ := ih rows n
        (fun b' hb' hcr' => hpre b' (List.mem_cons_of_mem _ hb') hcr')
      exact ⟨rows', n', by rw [retryFold_cons_skip rest n (by simpa using hcr)]; exact hok,
        hids'⟩

/-- Under distinct batch ids and distinct row ids, a retried batch event's
row ends up in the result with its status set to PENDING and every other
field as the update wrote it. -/
theorem retryFold_applied {e : OutboxEvent} {r : OutboxEventORM} :
    ∀ (batch : List OutboxEvent) {rows rows' : List OutboxEventORM} {n n' : Nat},
      (batch.map (fun bb => bb.id)).Nodup → (rows.map (fun o => o.id)).Nodup →
      e ∈ batch → e.can_retry = true → r ∈ rows → r.id = e.id →
      retryFold batch rows n = Except.ok (rows', n') →
      applyUpdateFields r { e with status := OutboxStatus.pending } ∈ rows' := by
  intro batch
  induction batch with
  | nil => intro rows rows' n n' _ _ he; simp at he
  | cons b rest ih =>
    intro rows rows' n n' hBN hRN he hcr hr hre h
    rw [List.map_cons, List.nodup_cons] at hBN
    obtain ⟨hbhead, hbtail⟩ := hBN
    rcases List.mem_cons.mp he with hEq | hMem
    · subst hEq
      rcases hu : updateRows { e with status := OutboxStatus.pending } rows with _ | rows1
      · rw [retryFold, if_pos hcr, hu] at h; simp at h
      · rw [retryFold_cons_retry rest n hcr hu] at h
        have hhit := updateRows_hit { e with status := OutboxStatus.pending } hRN hr hre hu
        refine retryFold_untouched rest hhit ?_ h
        intro b' hb' _ hcontra
        have hb'id : b'.id = e.id := hcontra.trans hre
        exact hbhead (by rw [← hb'id]; exact List.mem_map_of_mem _ hb')
    · by_cases hcrb : b.can_retry = true
      · rcases hu : updateRows { b with status := OutboxStatus.pending } rows with _ | rows1
        · rw [retryFold, if_pos hcrb, hu] at h; simp at h
        · rw [retryFold_cons_retry rest n hcrb hu] at h
          have hbne : b.id ≠ e.id := by
            intro hcontra
            exact hbhead (by rw [hcontra]; exact List.mem_map_of_mem _ hMem)
          have hrne : r.id ≠ ({ b with status := OutboxStatus.pending } : OutboxEvent).id := by
            show r.id ≠ b.id
            rw [hre]
            exact fun hc => hbne hc.symm
          have hr1 : r ∈ rows1 := updateRows_mem_of_ne _ hu hr hrne
          have hRN1 : (rows1.map (fun o => o.id)).Nodup := by
            rw [updateRows_ids _ hu]; exact hRN
          exact ih hbtail hRN1 hMem hcr hr1 hre h
      · rw [retryFold_cons_skip rest n (by simpa using hcrb)] at h
        exact ih hbtail hRN hMem hcr hr hre h

/-- A FAILED row — untouched by every event of a pending batch — survives a
whole pass of the per-event processing loop unchanged: each loop step only
updates rows carrying the processed event's id. -/
theorem processFold_failed_untouched (runHandler : OutboxEvent → Except String Unit)
    (now : Nat) {r : OutboxEventORM} :
    ∀ (batch : List OutboxEvent) {rows rows' : List OutboxEventORM} {n n' : Nat},
      r ∈ rows → (∀ b ∈ batch, b.id ≠ r.id) →
      processFold runHandler now batch rows n = Except.ok (rows', n') → r ∈ rows' := by
  intro batch
  induction batch with
  | nil =>
    intro rows rows' n n' hr _ h
    rw [processFold] at h
    simp only [Except.ok.injEq, Prod.mk.injEq] at h
    obtain ⟨rfl, rfl⟩ := h
    exact hr
  | cons b rest ih =>
    intro rows rows' n n' hr hb h
    have hbne : r.id ≠ b.id := fun hc => hb b (List.mem_cons_self _ _) hc.symm
    have hbrest : ∀ b' ∈ rest, b'.id ≠ r.id :=
      fun b' hb' => hb b' (List.mem_cons_of_mem _ hb')
    rw [processFold] at h
    split at h
    · exact absurd h (by simp)
    · rename_i rows1 h1
      have hr1 : r ∈ rows1 := updateRows_mem_of_ne _ h1 hr hbne
      split at h
      · split at h
        · split at h
          · exact absurd h (by simp)
          · rename_i rows2 h2
            exact ih (updateRows_mem_of_ne _ h2 hr1 hbne) hbrest h
        · split at h
          · exact absurd h (by simp)
          · rename_i rows2 h2
            exact ih (updateRows_mem_of_ne _ h2 hr1 hbne) hbrest h
      · split at h
        · exact absurd h (by simp)
        · rename_i rows2 h2
          exact ih (updateRows_mem_of_ne _ h2 hr1 hbne) hbrest h

/-- Domain conversion preserves the PK. -/
theorem to_domain_id (o : OutboxEventORM) :
    (SQLAlchemyOutboxRepository.to_domain o).id = o.id := rfl

/-- Every failed row below the retry cap is fetched by get_failed_for_retry
when the table fits in the fetch limit. -/
theorem mem_get_failed_for_retry_of {rows : List OutboxEventORM}
    {r : OutboxEventORM} (hlen : rows.length ≤ 100) (hr : r ∈ rows)
    (hs : r.status = OutboxStatus.failed) (hc : r.retry_count < r.max_retries) :
    SQLAlchemyOutboxRepository.to_domain r ∈
      SQLAlchemyOutboxRepository.get_failed_for_retry rows 100 := by
  unfold SQLAlchemyOutboxRepository.get_failed_for_retry
  set flt := rows.filter (fun o =>
    o.status == OutboxStatus.failed && decide (o.retry_count < o.max_retries)) with hflt
  have hmemf : r ∈ flt := by
    rw [hflt]
    exact List.mem_filter.mpr ⟨hr, by simp [hs, hc]⟩
  have hmems : r ∈ flt.insertionSort ormCreatedLE :=
    (List.perm_insertionSort ormCreatedLE flt).mem_iff.mpr hmemf
  have hlen' : (flt.insertionSort ormCreatedLE).length ≤ 100 := by
    rw [(List.perm_insertionSort ormCreatedLE flt).length_eq]
    exact le_trans (List.length_filter_le _ _) hlen
  rw [List.take_of_length_le hlen']
  exact List.mem_map_of_mem _ hmems

/-- Everything get_failed_for_retry returns is the domain view of a stored
row that is FAILED and below its retry cap. -/
theorem get_failed_for_retry_spec {rows : List OutboxEventORM} {b : OutboxEvent}
    (h : b ∈ SQLAlchemyOutboxRepository.get_failed_for_retry rows 100) :
    ∃ r, r ∈ rows ∧ r.status = OutboxStatus.failed ∧
      r.retry_count < r.max_retries ∧
      b = SQLAlchemyOutboxRepository.to_domain r := by
  unfold SQLAlchemyOutboxRepository.get_failed_for_retry at h
  obtain ⟨r, hrmem, hrb⟩ := List.mem_map.mp h
  have hrs : r ∈ (rows.filter (fun o =>
      o.status == OutboxStatus.failed &&
        decide (o.retry_count < o.max_retries))).insertionSort ormCreatedLE :=
    (List.take_sublist _ _).mem hrmem
  have hrf := (List.perm_insertionSort ormCreatedLE _).mem_iff.mp hrs
  obtain ⟨hrrows, hpred⟩ := List.mem_filter.mp hrf
  simp only [Bool.and_eq_true, beq_iff_eq, decide_eq_true_eq] at hpred
  exact ⟨r, hrrows, hpred.1, hpred.2, hrb.symm⟩

/-- Everything get_pending returns is the domain view of a PENDING row. -/
theorem get_pending_spec {rows : List OutboxEventORM} {limit : Nat} {b : OutboxEvent}
    (h : b ∈ SQLAlchemyOutboxRepository.get_pending rows limit) :
    ∃ r, r ∈ rows ∧ r.status = OutboxStatus.pending ∧
      b = SQLAlchemyOutboxRepository.to_domain r := by
  unfold SQLAlchemyOutboxRepository.get_pending at h
  obtain ⟨r, hrmem, hrb⟩ := List.mem_map.mp h
  have hrs : r ∈ (rows.filter
      (fun o => o.status == OutboxStatus.pending)).insertionSort ormCreatedLE :=
    (List.take_sublist _ _).mem hrmem
  have hrf := (List.perm_insertionSort ormCreatedLE _).mem_iff.mp hrs
  obtain ⟨hrrows, hpred⟩ := List.mem_filter.mp hrf
  simp only [beq_iff_eq] at hpred
  exact ⟨r, hrrows, hpred, hrb.symm⟩

/-- Distinct row ids give distinct ids in the get_failed_for_retry batch. -/
theorem get_failed_for_retry_ids_nodup {rows : List OutboxEventORM}
    (h : (rows.map (fun o => o.id)).Nodup) :
    ((SQLAlchemyOutboxRepository.get_failed_for_retry rows 100).map
      (fun b => b.id)).Nodup := by
  unfold SQLAlchemyOutboxRepository.get_failed_for_retry
  rw [List.map_map]
  show (((rows.filter _).insertionSort ormCreatedLE).take 100).map (fun o => o.id) |>.Nodup
  refine List.Nodup.sublist ((List.take_sublist _ _).map _) ?_
  refine (((List.perm_insertionSort ormCreatedLE _).map _).nodup_iff).mpr ?_
  exact List.Nodup.sublist ((List.filter_sublist _).map _) h

/-- Key fact used by several theorems: under distinct row ids, two stored
rows with the same id are the same row. -/
theorem rows_id_inj {rows : List OutboxEventORM}
    (hN : (rows.map (fun o => o.id)).Nodup) {x y : OutboxEventORM}
    (hx : x ∈ rows) (hy : y ∈ rows) (hxy : x.id = y.id) : x = y :=
  List.inj_on_of_nodup_map hN hx hy hxy

/-- retry_failed_events leaves a FAILED row at or above its retry cap
exactly as it was: the fetch excludes it and every fetched event targets a
different row. -/
theorem retry_failed_events_cap_untouched {rows : List OutboxEventORM}
    (hN : (rows.map (fun o => o.id)).Nodup) {r : OutboxEventORM}
    (hr : r ∈ rows) (hc : r.max_retries ≤ r.retry_count)
    {rows' : List OutboxEventORM} {n : Nat}
    (h : OutboxProcessor.retry_failed_events rows = Except.ok (rows', n)) :
    r ∈ rows' := by
  unfold OutboxProcessor.retry_failed_events at h
  refine retryFold_untouched _ hr ?_ h
  intro b hb _ hcontra
  obtain ⟨rb, hrbmem, _, hrbc, hbrb⟩ := get_failed_for_retry_spec hb
  have hrbid : rb.id = r.id := by
    rw [← hcontra, hbrb, to_domain_id]
  have : rb = r := rows_id_inj hN hrbmem hr hrbid
  rw [this] at hrbc
  exact absurd hrbc (not_lt.mpr hc)

/-- retry_failed_events promotes a FAILED row below its retry cap back to
PENDING, changing no other field of the row. -/
theorem retry_failed_events_resets_below_cap {rows : List OutboxEventORM}
    (hN : (rows.map (fun o => o.id)).Nodup) (hlen : rows.length ≤ 100)
    {r : OutboxEventORM} (hr : r ∈ rows) (hs : r.status = OutboxStatus.failed)
    (hc : r.retry_count < r.max_retries) :
    ∃ rows' n, OutboxProcessor.retry_failed_events rows = Except.ok (rows', n) ∧
      { r with status := OutboxStatus.pending } ∈ rows' := by
  have hpre : ∀ b ∈ SQLAlchemyOutboxRepository.get_failed_for_retry rows 100,
      b.can_retry = true → b.id ∈ rows.map (fun o => o.id) := by
    intro b hb _
    obtain ⟨rb, hrbmem, _, _, hbrb⟩ := get_failed_for_retry_spec hb
    rw [hbrb, to_domain_id]
    exact List.mem_map_of_mem _ hrbmem
  obtain ⟨rows', n', hok, _⟩ :=
    retryFold_ok (SQLAlchemyOutboxRepository.get_failed_for_retry rows 100) rows 0 hpre
  have he : SQLAlchemyOutboxRepository.to_domain r ∈
      SQLAlchemyOutboxRepository.get_failed_for_retry rows 100 :=
    mem_get_failed_for_retry_of hlen hr hs hc
  have hcr : (SQLAlchemyOutboxRepository.to_domain r).can_retry = true := by
    simp [OutboxEvent.can_retry, SQLAlchemyOutboxRepository.to_domain, hs, hc]
  have happ := retryFold_applied
    (SQLAlchemyOutboxRepository.get_failed_for_retry rows 100)
    (get_failed_for_retry_ids_nodup hN) hN he hcr hr rfl hok
  exact ⟨rows', n', by unfold OutboxProcessor.retry_failed_events; exact hok, happ⟩

/-- A processor pass (process_batch) leaves every FAILED row unchanged: it
drains only PENDING events, each of which targets a different row. -/
theorem process_batch_keeps_failed {rows : List OutboxEventORM}
    (hN : (rows.map (fun o => o.id)).Nodup) {r : OutboxEventORM}
    (hr : r ∈ rows) (hs : r.status = OutboxStatus.failed)
    (runHandler : OutboxEvent → Except String Unit) (now bs : Nat)
    {rows' : List OutboxEventORM} {n : Nat}
    (h : OutboxProcessor.process_batch runHandler now bs rows = Except.ok (rows', n)) :
    r ∈ rows' := by
  unfold OutboxProcessor.process_batch at h
  split at h
  · simp only [Except.ok.injEq, Prod.mk.injEq] at h
    obtain ⟨rfl, rfl⟩ := h
    exact hr
  · refine processFold_failed_untouched runHandler now _ hr ?_ h
    intro b hb hcontra
    obtain ⟨rb, hrbmem, hrbs, hbrb⟩ := get_pending_spec hb
    have hrbid : rb.id = r.id := by
      rw [← hcontra, hbrb, to_domain_id]
    have : rb = r := rows_id_inj hN hrbmem hr hrbid
    rw [this, hs] at hrbs
    exact absurd hrbs (by simp)

/-- C4 (amended). On a table with distinct row ids that fits the fetch
limit: (i) a FAILED event with retry_count at or above max_retries stays
FAILED across processor passes AND across retryFailedEvents() — the manual
reset never touches it, because it only fetches events below the cap;
(ii) retryFailedEvents() resets exactly the FAILED events with
retry_count below max_retries to PENDING; (iii) a processor pass leaves
every FAILED event unchanged; (iv) a FAILED event below the cap is
returned by getFailedForRetry — but, by (iii), it is not re-dispatched by
passes (which drain only PENDING) until retryFailedEvents() promotes it. -/
theorem c4_retry_cap_semantics (rows : List OutboxEventORM)
    (hN : (rows.map (fun o => o.id)).Nodup) (hlen : rows.length ≤ 100) :
    (∀ r ∈ rows, r.status = OutboxStatus.failed → r.max_retries ≤ r.retry_count →
      ∀ rows' n, OutboxProcessor.retry_failed_events rows = Except.ok (rows', n) →
        r ∈ rows')
    ∧ (∀ r ∈ rows, r.status = OutboxStatus.failed → r.retry_count < r.max_retries →
        ∃ rows' n, OutboxProcessor.retry_failed_events rows = Except.ok (rows', n) ∧
          { r with status := OutboxStatus.pending } ∈ rows')
    ∧ (∀ (runHandler : OutboxEvent → Except String Unit) (now bs : Nat),
        ∀ r ∈ rows, r.status = OutboxStatus.failed →
        ∀ rows' n, OutboxProcessor.process_batch runHandler now bs rows =
            Except.ok (rows', n) → r ∈ rows')
    ∧ (∀ r ∈ rows, r.status = OutboxStatus.failed → r.retry_count < r.max_retries →
        SQLAlchemyOutboxRepository.to_domain r ∈
          SQLAlchemyOutboxRepository.get_failed_for_retry rows 100) := by
  refine ⟨?_, ?_, ?_, ?_⟩
  · intro r hr _ hc rows' n h
    exact retry_failed_events_cap_untouched hN hr hc h
  · intro r hr hs hc
    exact retry_failed_events_resets_below_cap hN hlen hr hs hc
  · intro runHandler now bs r hr hs rows' n h
    exact process_batch_keeps_failed hN hr hs runHandler now bs h
  · intro r hr hs hc
    exact mem_get_failed_for_retry_of hlen hr hs hc

/-- Witness for the amended retry semantics on a two-row table holding one
capped and one below-cap FAILED event. -/
theorem c4_retry_cap_semantics_witness :
    (∃ rows' n, OutboxProcessor.retry_failed_events [c4CapRow, c4BelowRow] =
        Except.ok (rows', n) ∧
      { c4BelowRow with status := OutboxStatus.pending } ∈ rows')
    ∧ SQLAlchemyOutboxRepository.to_domain c4BelowRow ∈
        SQLAlchemyOutboxRepository.get_failed_for_retry [c4CapRow, c4BelowRow] 100 := by
  refine ⟨(c4_retry_cap_semantics [c4CapRow, c4BelowRow] (by decide) (by decide)).2.1
      c4BelowRow (by simp) rfl (by decide),
    (c4_retry_cap_semantics [c4CapRow, c4BelowRow] (by decide) (by decide)).2.2.2
      c4BelowRow (by simp) rfl (by decide)⟩

/-- C9. The processor's manual retry pass changes only the status field of
each event it resets: a FAILED row below the cap reappears with status
PENDING and with its retry_count and last_error exactly as they were —
unlike the unused domain method OutboxEvent.reset_for_retry, which, on top
of setting the status to PENDING, zeroes retry_count and clears
last_error. -/
theorem c9_retry_pass_changes_only_status (rows : List OutboxEventORM)
    (hN : (rows.map (fun o => o.id)).Nodup) (hlen : rows.length ≤ 100) :
    (∀ r ∈ rows, r.status = OutboxStatus.failed → r.retry_count < r.max_retries →
      ∃ rows' n, OutboxProcessor.retry_failed_events rows = Except.ok (rows', n) ∧
        { r with status := OutboxStatus.pending } ∈ rows' ∧
        ({ r with status := OutboxStatus.pending } : OutboxEventORM).retry_count =
          r.retry_count ∧
        ({ r with status := OutboxStatus.pending } : OutboxEventORM).last_error =
          r.last_error)
    ∧ (∀ e : OutboxEvent, e.reset_for_retry =
        { e with status := OutboxStatus.pending, retry_count := 0,
                 last_error := none }) := by
  constructor
  · intro r hr hs hc
    obtain ⟨rows', n, hok, hmem⟩ :=
      retry_failed_events_resets_below_cap hN hlen hr hs hc
    exact ⟨rows', n, hok, hmem, rfl, rfl⟩
  · intro e
    rfl

/-- Witness for the only-status reset at the two-row fixture. -/
theorem c9_retry_pass_changes_only_status_witness :
    ∃ rows' n, OutboxProcessor.retry_failed_events [c4CapRow, c4BelowRow] =
        Except.ok (rows', n) ∧
      { c4BelowRow with status := OutboxStatus.pending } ∈ rows' ∧
      ({ c4BelowRow with status := OutboxStatus.pending } : OutboxEventORM).retry_count =
        c4BelowRow.retry_count ∧
      ({ c4BelowRow with status := OutboxStatus.pending } : OutboxEventORM).last_error =
        c4BelowRow.last_error :=
  (c9_retry_pass_changes_only_status [c4CapRow, c4BelowRow] (by decide) (by decide)).1
    c4BelowRow (by simp) rfl (by decide)

/-- A path once in skipped_paths stays there through the rest of the loop. -/
theorem cleanupLoop_mem_skipped (bd : Option String) (dr : Bool) :
    ∀ (ps : List String) (fs : FS) (acc : CleanupAcc) (q : String),
      q ∈ acc.skipped_paths → q ∈ (cleanupLoop bd dr fs ps acc).1.skipped_paths := by
  intro ps
  induction ps with
  | nil => intro fs acc q hq; rw [cleanupLoop]; exact hq
  | cons p rest ih =>
    intro fs acc q hq
    rcases hfs : fs p with _ | ⟨ro, bok⟩
    · rw [cleanupLoop, hfs]
      exact ih fs _ q (List.mem_append.mpr (Or.inl hq))
    · rw [cleanupLoop, hfs]
      cases dr with
      | true =>
        refine ih fs _ q ?_
        show q ∈ (addWouldBackup bd.isSome p acc).skipped_paths
        rw [addWouldBackup_skipped]
        exact hq
      | false =>
        cases ro with
        | ok =>
          refine ih _ _ q ?_
          show q ∈ (addWouldBackup (bd.isSome && bok) p acc).skipped_paths
          rw [addWouldBackup_skipped]
          exact hq
        | permissionError =>
          refine ih fs _ q ?_
          show q ∈ (addWouldBackup (bd.isSome && bok) p acc).skipped_paths ++ [p]
          rw [addWouldBackup_skipped]
          exact List.mem_append.mpr (Or.inl hq)
        | osError m =>
          refine ih fs _ q ?_
          show q ∈ (addWouldBackup (bd.isSome && bok) p acc).skipped_paths ++ [p]
          rw [addWouldBackup_skipped]
          exact List.mem_append.mpr (Or.inl hq)

/-- An error message once collected stays collected through the loop. -/
theorem cleanupLoop_mem_errors (bd : Option String) (dr : Bool) :
    ∀ (ps : List String) (fs : FS) (acc : CleanupAcc) (msg : String),
      msg ∈ acc.errors → msg ∈ (cleanupLoop bd dr fs ps acc).1.errors := by
  intro ps
  induction ps with
  | nil => intro fs acc msg hq; rw [cleanupLoop]; exact hq
  | cons p rest ih =>
    intro fs acc msg hq
    rcases hfs : fs p with _ | ⟨ro, bok⟩
    · rw [cleanupLoop, hfs]
      exact ih fs _ msg hq
    · rw [cleanupLoop, hfs]
      cases dr with
      | true =>
        refine ih fs _ msg ?_
        show msg ∈ (addWouldBackup bd.isSome p acc).errors
        rw [addWouldBackup_errors]
        exact hq
      | false =>
        cases ro with
        | ok =>
          refine ih _ _ msg ?_
          show msg ∈ (addWouldBackup (bd.isSome && bok) p acc).errors
          rw [addWouldBackup_errors]
          exact hq
        | permissionError =>
          refine ih fs _ msg ?_
          show msg ∈ (addWouldBackup (bd.isSome && bok) p acc).errors ++
            [permissionDeniedMsg p]
          rw [addWouldBackup_errors]
          exact List.mem_append.mpr (Or.inl hq)
        | osError m =>
          refine ih fs _ msg ?_
          show msg ∈ (addWouldBackup (bd.isSome && bok) p acc).errors ++ [osErrorMsg p m]
          rw [addWouldBackup_errors]
          exact List.mem_append.mpr (Or.inl hq)

/-- Every path of the list that is missing on disk ends up in
skipped_paths (paths are assumed pairwise distinct, as produced by the
set-difference in identify_orphaned_files). -/
theorem cleanupLoop_absent_skipped (bd : Option String) (dr : Bool) :
    ∀ (ps : List String) (fs : FS) (acc : CleanupAcc) (p : String),
      ps.Nodup → p ∈ ps → fs p = PathState.absent →
      p ∈ (cleanupLoop bd dr fs ps acc).1.skipped_paths := by
  intro ps
  induction ps with
  | nil => intro fs acc p _ hp; simp at hp
  | cons q rest ih =>
    intro fs acc p hnd hp hfsp
    obtain ⟨hqrest, hndrest⟩ := List.nodup_cons.mp hnd
    rcases List.mem_cons.mp hp with hEq | hMem
    · subst hEq
      rw [cleanupLoop, hfsp]
      exact cleanupLoop_mem_skipped bd dr rest fs _ p
        (List.mem_append.mpr (Or.inr (List.mem_singleton.mpr rfl)))
    · have hqp : q ≠ p := fun hc => hqrest (hc ▸ hMem)
      rcases hfs : fs q with _ | ⟨ro, bok⟩
      · rw [cleanupLoop, hfs]
        exact ih fs _ p hndrest hMem hfsp
      · rw [cleanupLoop, hfs]
        cases dr with
        | true => exact ih fs _ p hndrest hMem hfsp
        | false =>
          cases ro with
          | ok =>
            refine ih _ _ p hndrest hMem ?_
            show (if p = q then PathState.absent else fs p) = PathState.absent
            rw [if_neg (fun hc => hqp hc.symm)]
            exact hfsp
          | permissionError => exact ih fs _ p hndrest hMem hfsp
          | osError m => exact ih fs _ p hndrest hMem hfsp

/-- In live mode, a present path whose removal raises PermissionError is
recorded in skipped_paths and contributes the permission-denied message to
errors, and the loop continues. -/
theorem cleanupLoop_perm_error (bd : Option String) :
    ∀ (ps : List String) (fs : FS) (acc : CleanupAcc) (p : String) (bok : Bool),
      ps.Nodup → p ∈ ps →
      fs p = PathState.present RemoveOutcome.permissionError bok →
      p ∈ (cleanupLoop bd false fs ps acc).1.skipped_paths ∧
      permissionDeniedMsg p ∈ (cleanupLoop bd false fs ps acc).1.errors := by
  intro ps
  induction ps with
  | nil => intro fs acc p bok _ hp; simp at hp
  | cons q rest ih =>
    intro fs acc p bok hnd hp hfsp
    obtain ⟨hqrest, hndrest⟩ := List.nodup_cons.mp hnd
    rcases List.mem_cons.mp hp with hEq | hMem
    · subst hEq
      rw [cleanupLoop, hfsp]
      constructor
      · refine cleanupLoop_mem_skipped bd false rest fs _ p ?_
        show p ∈ (addWouldBackup (bd.isSome && bok) p acc).skipped_paths ++ [p]
        exact List.mem_append.mpr (Or.inr (List.mem_singleton.mpr rfl))
      · refine cleanupLoop_mem_errors bd false rest fs _ _ ?_
        show permissionDeniedMsg p ∈
          (addWouldBackup (bd.isSome && bok) p acc).errors ++ [permissionDeniedMsg p]
        exact List.mem_append.mpr (Or.inr (List.mem_singleton.mpr rfl))
    · have hqp : q ≠ p := fun hc => hqrest (hc ▸ hMem)
      rcases hfs : fs q with _ | ⟨ro, bok'⟩
      · rw [cleanupLoop, hfs]
        exact ih fs _ p bok hndrest hMem hfsp
      · rw [cleanupLoop, hfs]
        cases ro with
        | ok =>
          refine ih _ _ p bok hndrest hMem ?_
          show (if p = q then PathState.absent else fs p) =
            PathState.present RemoveOutcome.permissionError bok
          rw [if_neg (fun hc => hqp hc.symm)]
          exact hfsp
        | permissionError => exact ih fs _ p bok hndrest hMem hfsp
        | osError m => exact ih fs _ p bok hndrest hMem hfsp

/-- In live mode, a present path whose removal raises an OSError is
recorded in skipped_paths and contributes the OS-error message to errors,
and the loop continues. -/
theorem cleanupLoop_os_error (bd : Option String) :
    ∀ (ps : List String) (fs : FS) (acc : CleanupAcc) (p m : String) (bok : Bool),
      ps.Nodup → p ∈ ps →
      fs p = PathState.present (RemoveOutcome.osError m) bok →
      p ∈ (cleanupLoop bd false fs ps acc).1.skipped_paths ∧
      osErrorMsg p m ∈ (cleanupLoop bd false fs ps acc).1.errors := by
  intro ps
  induction ps with
  | nil => intro fs acc p m bok _ hp; simp at hp
  | cons q rest ih =>
    intro fs acc p m bok hnd hp hfsp
    obtain ⟨hqrest, hndrest⟩ := List.nodup_cons.mp hnd
    rcases List.mem_cons.mp hp with hEq | hMem
    · subst hEq
      rw [cleanupLoop, hfsp]
      constructor
      · refine cleanupLoop_mem_skipped bd false rest fs _ p ?_
        show p ∈ (addWouldBackup (bd.isSome && bok) p acc).skipped_paths ++ [p]
        exact List.mem_append.mpr (Or.inr (List.mem_singleton.mpr rfl))
      · refine cleanupLoop_mem_errors bd false rest fs _ _ ?_
        show osErrorMsg p m ∈
          (addWouldBackup (bd.isSome && bok) p acc).errors ++ [osErrorMsg p m]
        exact List.mem_append.mpr (Or.inr (List.mem_singleton.mpr rfl))
    · have hqp : q ≠ p := fun hc => hqrest (hc ▸ hMem)
      rcases hfs : fs q with _ | ⟨ro, bok'⟩
      · rw [cleanupLoop, hfs]
        exact ih fs _ p m bok hndrest hMem hfsp
      · rw [cleanupLoop, hfs]
        cases ro with
        | ok =>
          refine ih _ _ p m bok hndrest hMem ?_
          show (if p = q then PathState.absent else fs p) =
            PathState.present (RemoveOutcome.osError m) bok
          rw [if_neg (fun hc => hqp hc.symm)]
          exact hfsp
        | permissionError => exact ih fs _ p m bok hndrest hMem hfsp
        | osError m' => exact ih fs _ p m bok hndrest hMem hfsp

/-- C8 (amended). A cleanup call that is not refused by the cap and whose
backup directory can be created (live mode with backup_dir set — a failed
creation is the one way the call raises, as the counterexample shows)
returns normally; every missing path is recorded as skipped; a per-path
PermissionError or OSError is recorded in errors and as skipped without
aborting the processing of the remaining paths; and the returned result
satisfies success = (errors is empty). -/
theorem c8_cleanup_collects_per_path_errors (mkdir_ok : Bool) (fs : FS)
    (cid : Nat) (eid : String) (paths : List String) (bd : Option String)
    (dry : Bool) (maxf : Nat) (hnd : paths.Nodup)
    (hcap : (decide (paths.length > maxf) && !dry) = false)
    (hmk : (bd.isSome && !dry && !mkdir_ok) = false) :
    ∃ r fs', cleanup_orphaned_files mkdir_ok fs cid eid paths bd dry maxf =
        Except.ok (r, fs')
      ∧ (∀ p ∈ paths, fs p = PathState.absent → p ∈ r.skipped_paths)
      ∧ (dry = false → ∀ p ∈ paths, ∀ bok,
          fs p = PathState.present RemoveOutcome.permissionError bok →
          p ∈ r.skipped_paths ∧ permissionDeniedMsg p ∈ r.errors)
      ∧ (dry = false → ∀ p ∈ paths, ∀ m bok,
          fs p = PathState.present (RemoveOutcome.osError m) bok →
          p ∈ r.skipped_paths ∧ osErrorMsg p m ∈ r.errors)
      ∧ (r.success = true ↔ r.errors = []) := by
  unfold cleanup_orphaned_files
  rw [hcap, hmk]
  refine ⟨_, (cleanupLoop bd dry fs paths CleanupAcc.empty).2, rfl, ?_, ?_, ?_, ?_⟩
  · intro p hp hfsp
    exact cleanupLoop_absent_skipped bd dry paths fs CleanupAcc.empty p hnd hp hfsp
  · intro hdry p hp bok hfsp
    subst hdry
    exact cleanupLoop_perm_error bd paths fs CleanupAcc.empty p bok hnd hp hfsp
  · intro hdry p hp m bok hfsp
    subst hdry
    exact cleanupLoop_os_error bd paths fs CleanupAcc.empty p m bok hnd hp hfsp
  · simp [FileCleanupResult.success, List.length_eq_zero]

/-- Witness for the per-path error collection: one missing path and one
path whose removal is denied, processed in one live call. -/
theorem c8_cleanup_collects_per_path_errors_witness :
    ∃ r fs', cleanup_orphaned_files true
        (fun q => if q = "locked.py" then
            PathState.present RemoveOutcome.permissionError true
          else PathState.absent) 7 "exec-7" ["gone.py", "locked.py"] none false 100 =
        Except.ok (r, fs')
      ∧ (∀ p ∈ ["gone.py", "locked.py"],
          (fun q => if q = "locked.py" then
              PathState.present RemoveOutcome.permissionError true
            else PathState.absent) p = PathState.absent → p ∈ r.skipped_paths)
      ∧ (false = false → ∀ p ∈ ["gone.py", "locked.py"], ∀ bok,
          (fun q => if q = "locked.py" then
              PathState.present RemoveOutcome.permissionError true
            else PathState.absent) p =
            PathState.present RemoveOutcome.permissionError bok →
          p ∈ r.skipped_paths ∧ permissionDeniedMsg p ∈ r.errors)
      ∧ (false = false → ∀ p ∈ ["gone.py", "locked.py"], ∀ m bok,
          (fun q => if q = "locked.py" then
              PathState.present RemoveOutcome.permissionError true
            else PathState.absent) p =
            PathState.present (RemoveOutcome.osError m) bok →
          p ∈ r.skipped_paths ∧ osErrorMsg p m ∈ r.errors)
      ∧ (r.success = true ↔ r.errors = []) :=
  c8_cleanup_collects_per_path_errors true
    (fun q => if q = "locked.py" then
        PathState.present RemoveOutcome.permissionError true
      else PathState.absent) 7 "exec-7" ["gone.py", "locked.py"] none false 100
    (by decide) (by decide) (by decide)

